import Mathlib

/-!
Verification of the quarto-plots-theme-switcher theme-sync routine.

The repository ships two variants of one script:
* `src/light-dark.js` (extended variant, with reactable-table handling), and
* `src/unnamed/part_000` (basic variant).

Both define a single routine `updateImageSrc` that reads the theme from the
document body's class list and walks a fixed set of CSS selectors, mutating
image sources, inline styles, per-element cached style snapshots, and (in the
extended variant) event listeners on pagination buttons.

This file shallowly embeds the DOM state the routine touches and both variants
of the routine, then proves/refutes the frozen claims about them.
-/

/-! ## String infrastructure

JavaScript's `String.prototype.replace` with a string pattern replaces only the
FIRST occurrence of the pattern.  Lean's `String.replace` replaces all
occurrences, so we model the JS behaviour explicitly over `List Char`.
-/

/-- Boolean test that `pat` is a prefix of `l` (over explicit character lists). -/
def listPrefixOf : List Char → List Char → Bool
  | [], _ => true
  | _ :: _, [] => false
  | a :: as, b :: bs => if a = b then listPrefixOf as bs else false

/-- Boolean test that `pat` occurs somewhere in `l` as a contiguous substring. -/
def listSub (pat : List Char) : List Char → Bool
  | [] => pat.isEmpty
  | c :: t => listPrefixOf pat (c :: t) || listSub pat t

/-- Number of positions of `l` at which `pat` occurs (occurrences may overlap). -/
def countOcc (pat : List Char) : List Char → Nat
  | [] => 0
  | c :: t => (if listPrefixOf pat (c :: t) then 1 else 0) + countOcc pat t

/-- Replace the first occurrence of `pat` in `l` by `rep`: the semantics of
JavaScript `l.replace(pat, rep)` for a non-empty string pattern `pat`. -/
def replFirst (pat rep : List Char) : List Char → List Char
  | [] => []
  | c :: t =>
    if listPrefixOf pat (c :: t) then rep ++ (c :: t).drop pat.length
    else c :: replFirst pat rep t

/-- JavaScript `s.replace(pat, rep)` (string pattern: first occurrence only). -/
def jsReplace (s pat rep : String) : String :=
  String.mk (replFirst pat.toList rep.toList s.toList)

theorem listPrefixOf_append_eq (pat : List Char) :
    ∀ x y : List Char, pat.length ≤ x.length →
      listPrefixOf pat (x ++ y) = listPrefixOf pat x := by
  induction pat with
  | nil => intro x y _; rfl
  | cons a as ih =>
    intro x y hlen
    cases x with
    | nil => simp at hlen
    | cons b bs =>
      simp only [List.cons_append, listPrefixOf]
      by_cases hab : a = b
      · simp only [hab, if_pos rfl]
        exact ih bs y (by simpa using hlen)
      · simp [hab]

theorem eq_append_drop_of_listPrefixOf {pat : List Char} :
    ∀ {l : List Char}, listPrefixOf pat l = true →
      pat ++ l.drop pat.length = l := by
  induction pat with
  | nil => intro l _; simp
  | cons a as ih =>
    intro l h
    cases l with
    | nil => simp [listPrefixOf] at h
    | cons b bs =>
      simp only [listPrefixOf] at h
      by_cases hab : a = b
      · subst hab
        simp only [if_pos rfl] at h
        simpa [List.length_cons, List.drop_succ_cons] using congrArg (a :: ·) (ih h)
      · simp [hab] at h

theorem listPrefixOf_self_append (pat y : List Char) :
    listPrefixOf pat (pat ++ y) = true := by
  induction pat with
  | nil => rfl
  | cons a as ih => simp [listPrefixOf, ih]

theorem lp_trans_prefix :
    ∀ (x pat y : List Char), listPrefixOf pat (x ++ y) = true →
      x.length ≤ pat.length → listPrefixOf x pat = true := by
  intro x
  induction x with
  | nil => intro pat y _ _; rfl
  | cons a xs ih =>
    intro pat y h hlen
    cases pat with
    | nil => simp at hlen
    | cons p ps =>
      simp only [List.cons_append, listPrefixOf] at h
      by_cases hpa : p = a
      · subst hpa
        simp only [if_pos rfl] at h
        simpa [listPrefixOf] using ih ps y h (by simpa using hlen)
      · simp [hpa] at h

theorem lp_drop :
    ∀ (x pat y : List Char), listPrefixOf pat (x ++ y) = true →
      x.length ≤ pat.length → listPrefixOf (pat.drop x.length) y = true := by
  intro x
  induction x with
  | nil => intro pat y h _; simpa using h
  | cons a xs ih =>
    intro pat y h hlen
    cases pat with
    | nil => simp at hlen
    | cons p ps =>
      simp only [List.cons_append, listPrefixOf] at h
      by_cases hpa : p = a
      · subst hpa
        simp only [if_pos rfl] at h
        simpa [List.length_cons, List.drop_succ_cons] using ih ps y h (by simpa using hlen)
      · simp [hpa] at h

theorem countOcc_cons_le (pat : List Char) (c : Char) (t : List Char) :
    countOcc pat t ≤ countOcc pat (c :: t) := by
  simp only [countOcc]; omega

theorem countOcc_drop_le (pat : List Char) :
    ∀ (k : Nat) (l : List Char), countOcc pat (l.drop k) ≤ countOcc pat l := by
  intro k
  induction k with
  | zero => intro l; simp
  | succ n ih =>
    intro l
    cases l with
    | nil => simp
    | cons c t =>
      calc countOcc pat ((c :: t).drop (n + 1)) = countOcc pat (t.drop n) := by
            simp [List.drop_succ_cons]
        _ ≤ countOcc pat t := ih t
        _ ≤ countOcc pat (c :: t) := countOcc_cons_le pat c t

theorem listSub_eq_false_of_countOcc {pat : List Char} (hp : pat ≠ []) :
    ∀ {l : List Char}, countOcc pat l = 0 → listSub pat l = false := by
  intro l
  induction l with
  | nil => intro _; simp [listSub, List.isEmpty_iff, hp]
  | cons c t ih =>
    intro h
    simp only [countOcc] at h
    have h1 : listPrefixOf pat (c :: t) = false := by
      by_cases hc : listPrefixOf pat (c :: t) = true
      · simp [hc] at h
      · simpa using hc
    have h2 : countOcc pat t = 0 := by
      simpa [h1] using h
    simp [listSub, h1, ih h2]

theorem replFirst_of_not_sub {pat rep : List Char} :
    ∀ {l : List Char}, listSub pat l = false → replFirst pat rep l = l := by
  intro l
  induction l with
  | nil => intro _; rfl
  | cons c t ih =>
    intro h
    simp only [listSub, Bool.or_eq_false_iff] at h
    simp [replFirst, h.1, ih h.2]

theorem sub_decomp {pat rep : List Char} (hp : pat ≠ []) :
    ∀ {l : List Char}, listSub pat l = true →
      ∃ a b, l = a ++ pat ++ b ∧ replFirst pat rep l = a ++ rep ++ b := by
  intro l
  induction l with
  | nil => intro h; simp [listSub, List.isEmpty_iff, hp] at h
  | cons c t ih =>
    intro h
    by_cases hlp : listPrefixOf pat (c :: t) = true
    · refine ⟨[], (c :: t).drop pat.length, ?_, ?_⟩
      · simpa using (eq_append_drop_of_listPrefixOf hlp).symm
      · simp [replFirst, hlp]
    · simp only [listSub, Bool.or_eq_true] at h
      rcases h with h | h
      · exact absurd h hlp
      · obtain ⟨a, b, hab, hrf⟩ := ih h
        refine ⟨c :: a, b, by simp [hab], ?_⟩
        simp [replFirst, hlp, hrf]

/-- Sufficient decidable condition on `(pat, rep)` so that pasting `rep` in
front of a `pat`-free list cannot create an occurrence of `pat`. -/
def appendSafe (pat rep : List Char) : Bool :=
  rep.tails.all fun s =>
    s.isEmpty ||
      (if pat.length ≤ s.length then !listPrefixOf pat s else !listPrefixOf s pat)

theorem not_sub_append_of_safe {pat : List Char} :
    ∀ {rep b : List Char}, appendSafe pat rep = true → listSub pat b = false →
      listSub pat (rep ++ b) = false := by
  intro rep
  induction rep with
  | nil => intro b _ hb; simpa using hb
  | cons r rs ih =>
    intro b hs hb
    have hsTail : appendSafe pat rs = true := by
      simp only [appendSafe, List.tails, List.all_cons, Bool.and_eq_true] at hs ⊢
      exact hs.2
    have hhead :
        (if pat.length ≤ (r :: rs).length then !listPrefixOf pat (r :: rs)
         else !listPrefixOf (r :: rs) pat) = true := by
      simp only [appendSafe, List.tails, List.all_cons, Bool.and_eq_true] at hs
      simpa [List.isEmpty] using hs.1
    have hlp : listPrefixOf pat ((r :: rs) ++ b) = false := by
      by_cases hlen : pat.length ≤ (r :: rs).length
      · rw [listPrefixOf_append_eq pat (r :: rs) b hlen]
        simp only [if_pos hlen] at hhead
        simpa using hhead
      · simp only [if_neg hlen] at hhead
        by_cases habs : listPrefixOf pat ((r :: rs) ++ b) = true
        · have := lp_trans_prefix (r :: rs) pat b habs (by omega)
          simp [this] at hhead
        · simpa using habs

    simp only [List.cons_append, listSub, Bool.or_eq_false_iff]
    constructor
    · simpa using hlp
    · simpa using ih hsTail hb

/-- Sufficient decidable condition on `(pat, rep)` so that a replacement
inside the tail cannot create a fresh occurrence of `pat` at the head: no
character of `pat` past its first position equals the first character of
`rep`. -/
def headSafe (pat rep : List Char) : Bool :=
  match rep with
  | [] => false
  | r :: _ => (pat.drop 1).all fun c => !decide (c = r)

theorem no_new_head_match {pat rep : List Char} (hp : pat ≠ [])
    (hhs : headSafe pat rep = true) {h : Char} {t : List Char}
    (hh : listPrefixOf pat (h :: t) = false) :
    listPrefixOf pat (h :: replFirst pat rep t) = false := by
  by_cases hsub : listSub pat t = true
  · obtain ⟨a, b, hab, hrf⟩ := @sub_decomp pat rep hp t hsub
    rw [hrf]
    by_cases hlen : pat.length ≤ (h :: a).length
    · have e1 : h :: (a ++ rep ++ b) = (h :: a) ++ (rep ++ b) := by simp
      have e2 : h :: t = (h :: a) ++ (pat ++ b) := by simp [hab]
      rw [e1, listPrefixOf_append_eq pat (h :: a) (rep ++ b) hlen]
      rw [e2, listPrefixOf_append_eq pat (h :: a) (pat ++ b) hlen] at hh
      exact hh
    · cases rep with
      | nil => simp [headSafe] at hhs
      | cons r rs =>
        by_cases habs : listPrefixOf pat (h :: (a ++ (r :: rs) ++ b)) = true
        · have e1 : h :: (a ++ (r :: rs) ++ b) = (h :: a) ++ (r :: (rs ++ b)) := by simp
          rw [e1] at habs
          have hdrop := lp_drop (h :: a) pat (r :: (rs ++ b)) habs (by omega)
          have hne : pat.drop (h :: a).length ≠ [] := by
            intro hcon
            have := List.drop_eq_nil_iff.mp hcon
            omega
          cases hd : pat.drop (h :: a).length with
          | nil => exact absurd hd hne
          | cons d ds =>
            rw [hd] at hdrop
            simp only [listPrefixOf] at hdrop
            by_cases hdr : d = r
            · have hmem : d ∈ pat.drop 1 := by
                have h2 : List.drop a.length (List.drop 1 pat)
                    = List.drop (h :: a).length pat := by
                  rw [List.drop_drop]
                  congr 1
                  simp only [List.length_cons]
                  omega
                have h3 : d ∈ List.drop a.length (List.drop 1 pat) := by
                  rw [h2, hd]
                  exact List.mem_cons_self d ds
                exact List.drop_subset _ _ h3
              have hall : ((pat.drop 1).all fun c => !decide (c = r)) = true := by
                simpa only [headSafe] using hhs
              have hcon := List.all_eq_true.mp hall d hmem
              simp [hdr] at hcon
            · simp [hdr] at hdrop
        · simpa using habs
  · rw [replFirst_of_not_sub (by simpa using hsub)]
    exact hh

theorem not_sub_replFirst {pat rep : List Char} (hp : pat ≠ [])
    (has : appendSafe pat rep = true) (hhs : headSafe pat rep = true) :
    ∀ {l : List Char}, countOcc pat l ≤ 1 →
      listSub pat (replFirst pat rep l) = false := by
  intro l
  induction l with
  | nil => intro _; simp [replFirst, listSub, List.isEmpty_iff, hp]
  | cons c t ih =>
    intro hc
    by_cases hlp : listPrefixOf pat (c :: t) = true
    · simp only [replFirst, if_pos hlp]
      have hct : countOcc pat t = 0 := by
        simp only [countOcc, if_pos hlp] at hc
        omega
      obtain ⟨m, hm⟩ : ∃ m, pat.length = m + 1 := by
        cases pat with
        | nil => exact absurd rfl hp
        | cons a as => exact ⟨as.length, by simp⟩
      have hdropS : (c :: t).drop pat.length = t.drop m := by
        simp [hm, List.drop_succ_cons]
      have hcd : countOcc pat ((c :: t).drop pat.length) = 0 := by
        rw [hdropS]
        have := countOcc_drop_le pat m t
        omega
      exact not_sub_append_of_safe has (listSub_eq_false_of_countOcc hp hcd)
    · have hlpf : listPrefixOf pat (c :: t) = false := by simpa using hlp
      simp only [replFirst, if_neg hlp]
      have hct : countOcc pat t ≤ 1 := by
        simp only [countOcc, hlpf] at hc
        omega
      simp only [listSub, Bool.or_eq_false_iff]
      refine ⟨?_, ih hct⟩
      exact no_new_head_match hp hhs hlpf

theorem replFirst_idem {pat rep : List Char} (hp : pat ≠ [])
    (has : appendSafe pat rep = true) (hhs : headSafe pat rep = true)
    {l : List Char} (hc : countOcc pat l ≤ 1) :
    replFirst pat rep (replFirst pat rep l) = replFirst pat rep l :=
  replFirst_of_not_sub (not_sub_replFirst hp has hhs hc)

theorem replFirst_self {pat : List Char} :
    ∀ {l : List Char}, replFirst pat pat l = l := by
  intro l
  induction l with
  | nil => rfl
  | cons c t ih =>
    by_cases hlp : listPrefixOf pat (c :: t) = true
    · simp only [replFirst, if_pos hlp]
      exact eq_append_drop_of_listPrefixOf hlp
    · simp [replFirst, hlp, ih]

theorem safe_light_to_dark :
    appendSafe ".light".toList ".dark".toList = true ∧
      headSafe ".light".toList ".dark".toList = true := by decide

theorem safe_dark_to_light :
    appendSafe ".dark".toList ".light".toList = true ∧
      headSafe ".dark".toList ".light".toList = true := by decide

/-! ## DOM model

Only the state the script reads or writes is modelled: the body class list,
and per element its tag, classes, ancestor context (for the descendant
selectors), `src`, inline style properties, the `dataset.originalStyle`
cache and the per-event listener counts on pagination buttons.
-/

/-- The six computed-style properties snapshotted for text elements. -/
structure Snapshot where
  fill : String := ""
  color : String := ""
  fontSize : String := ""
  fontWeight : String := ""
  fontFamily : String := ""
  textDecoration : String := ""
deriving DecidableEq, Repr

/-- Payload of `text.dataset.originalStyle`.  `valid s` stands for the JSON
string `JSON.stringify(s)` produced by the capture step (which always parses
back to `s`); `corrupt` stands for any other non-empty string, on which
`JSON.parse` throws.  An empty string is falsy in JavaScript and behaves
exactly like an absent value, so it is folded into `Option.none`. -/
inductive StoredStyle where
  | valid (s : Snapshot)
  | corrupt
deriving DecidableEq, Repr

/-- `JSON.parse` applied to a stored payload: succeeds exactly on payloads
written by `JSON.stringify`. -/
def parseStored : Option StoredStyle → Option Snapshot
  | some (StoredStyle.valid s) => some s
  | _ => none

/-- Inline style declarations.  A property with value `""` is undeclared
(assigning `""` removes the declaration, as in the CSS object model). -/
structure Style where
  background : String := ""
  fill : String := ""
  color : String := ""
  fontSize : String := ""
  fontWeight : String := ""
  fontFamily : String := ""
  textDecoration : String := ""
  backgroundColor : String := ""
  borderColor : String := ""
  transition : String := ""
deriving DecidableEq, Repr

/-- Number of attached listeners per event type (`addEventListener` with a
fresh closure never de-duplicates, so each call increments the count). -/
structure Listeners where
  click : Nat := 0
  mouseenter : Nat := 0
  mouseleave : Nat := 0
  mousedown : Nat := 0
  mouseup : Nat := 0
deriving DecidableEq, Repr

/-- One DOM element, restricted to what the script touches.  The `inside*`
flags record the ancestor context tested by the descendant CSS selectors
(`svg text`, `.rt-tbody .rt-tr`, `.rt-pagination button`, …). -/
structure Elem where
  tag : String
  classes : List String := []
  insideSvg : Bool := false
  insideRtTbody : Bool := false
  insideRtThead : Bool := false
  insideRtPagination : Bool := false
  insideRtPaginationNav : Bool := false
  src : String := ""
  style : Style := {}
  /-- stylesheet/inherited values reported by `window.getComputedStyle` for
  properties with no inline declaration -/
  base : Snapshot := {}
  /-- `elem.dataset.originalStyle` -/
  originalStyle : Option StoredStyle := none
  listeners : Listeners := {}
deriving DecidableEq, Repr

/-- The document: body class list plus elements in document order. -/
structure DOM where
  bodyClasses : List String
  elems : List Elem
deriving DecidableEq, Repr

attribute [ext] Snapshot Style Listeners Elem DOM

instance {α β : Type} [DecidableEq α] [DecidableEq β] : DecidableEq (Except α β) :=
  fun x y =>
  match x, y with
  | Except.ok a, Except.ok b =>
    if h : a = b then Decidable.isTrue (by rw [h])
    else Decidable.isFalse fun hc => h (by injection hc)
  | Except.error a, Except.error b =>
    if h : a = b then Decidable.isTrue (by rw [h])
    else Decidable.isFalse fun hc => h (by injection hc)
  | Except.ok _, Except.error _ => Decidable.isFalse fun hc => by injection hc
  | Except.error _, Except.ok _ => Decidable.isFalse fun hc => by injection hc

/-- `window.getComputedStyle`, shallowly embedded: an inline declaration wins,
otherwise the stylesheet/inherited value `e.base` is reported. -/
def computedOf (e : Elem) : Snapshot where
  fill := if e.style.fill ≠ "" then e.style.fill else e.base.fill
  color := if e.style.color ≠ "" then e.style.color else e.base.color
  fontSize := if e.style.fontSize ≠ "" then e.style.fontSize else e.base.fontSize
  fontWeight := if e.style.fontWeight ≠ "" then e.style.fontWeight else e.base.fontWeight
  fontFamily := if e.style.fontFamily ≠ "" then e.style.fontFamily else e.base.fontFamily
  textDecoration :=
    if e.style.textDecoration ≠ "" then e.style.textDecoration else e.base.textDecoration

def hasClass (e : Elem) (c : String) : Bool := e.classes.contains c

/-- CSS selector `img`. -/
def selImg (e : Elem) : Bool := e.tag == "img"

/-- CSS selector `svg[style*="background"]`: an `svg` whose inline style
declares a background. -/
def selSvgBackground (e : Elem) : Bool := e.tag == "svg" && e.style.background != ""

/-- CSS selector `rect[style*="fill"]`. -/
def selRectFill (e : Elem) : Bool := e.tag == "rect" && e.style.fill != ""

/-- CSS selector `text[class*="legendtext"], svg text, svg tspan`. -/
def selText (e : Elem) : Bool :=
  (e.tag == "text" && e.classes.any fun c => listSub "legendtext".toList c.toList) ||
  (e.insideSvg && (e.tag == "text" || e.tag == "tspan"))

/-- CSS selector `.gt_table_body, .gt_heading, .gt_sourcenotes, .gt_footnotes`. -/
def selGt (e : Elem) : Bool :=
  hasClass e "gt_table_body" || hasClass e "gt_heading" ||
  hasClass e "gt_sourcenotes" || hasClass e "gt_footnotes"

/-- CSS selector `.reactable`. -/
def selReactable (e : Elem) : Bool := hasClass e "reactable"

/-- CSS selector `.rt-tbody .rt-tr, .rt-thead .rt-tr, .rt-pagination`. -/
def selRtRow (e : Elem) : Bool :=
  (e.insideRtTbody && hasClass e "rt-tr") ||
  (e.insideRtThead && hasClass e "rt-tr") || hasClass e "rt-pagination"

/-- CSS selector `.rt-search`. -/
def selRtSearch (e : Elem) : Bool := hasClass e "rt-search"

/-- CSS selector `.rt-pagination button`. -/
def selPagButton (e : Elem) : Bool := e.tag == "button" && e.insideRtPagination

/-- CSS selector `.rt-pagination-nav button`. -/
def selPagNavButton (e : Elem) : Bool := e.tag == "button" && e.insideRtPaginationNav

/-- CSS selector `.rt-page-button-current`. -/
def selPagCurrent (e : Elem) : Bool := hasClass e "rt-page-button-current"

/-- CSS selector `.rt-sort-header`. -/
def selSortHeader (e : Elem) : Bool := hasClass e "rt-sort-header"

/-! ## The routine -/

/-- `document.querySelectorAll(selector).forEach(updateFunc)`. -/
def updateElements (sel : Elem → Bool) (updateFunc : Elem → Elem)
    (doc : List Elem) : List Elem :=
  doc.map fun e => if sel e then updateFunc e else e

/-- Fallible variant: the callback may throw (`JSON.parse`), which aborts the
whole invocation and propagates to the caller. -/
def updateElementsE (sel : Elem → Bool) (updateFunc : Elem → Except Unit Elem) :
    List Elem → Except Unit (List Elem)
  | [] => Except.ok []
  | e :: t => do
    let e' ← if sel e then updateFunc e else Except.ok e
    let t' ← updateElementsE sel updateFunc t
    Except.ok (e' :: t')

/-- The `img` callback:
`img.src.replace(isLightMode ? ".dark" : ".light", isDarkMode ? ".dark" : ".light")`,
written back only when changed. -/
def imgUpdate (isLightMode isDarkMode : Bool) (img : Elem) : Elem :=
  let newSrc := jsReplace img.src (if isLightMode then ".dark" else ".light")
      (if isDarkMode then ".dark" else ".light")
  if newSrc ≠ img.src then { img with src := newSrc } else img

/-- `updateStyle(elem, prop, lightValue, darkValue)` from the source, with the
dynamic property name passed as a getter/setter pair on `Style`. -/
def updateStyle (get : Style → String) (set : Style → String → Style)
    (isDarkMode : Bool) (lightValue darkValue : String) (elem : Elem) : Elem :=
  let currentValue := get elem.style
  let newValue := if isDarkMode then darkValue else lightValue
  if currentValue ≠ newValue then { elem with style := set elem.style newValue }
  else elem

/-- The text-element callback shared by both variants; `darkColor` is
`"rgb(204,193,183)"` in `light-dark.js` and `"white"` in `part_000` — the only
difference between the two variants outside the reactable block. -/
def textUpdate (isDarkMode : Bool) (darkColor : String) (text : Elem) :
    Except Unit Elem :=
  let text :=
    if text.originalStyle.isNone then
      { text with originalStyle := some (StoredStyle.valid (computedOf text)) }
    else text
  match parseStored text.originalStyle with
  | none => Except.error ()   -- JSON.parse throws; nothing catches it
  | some originalStyle =>
    if isDarkMode then
      Except.ok { text with style :=
        { text.style with fill := "white", color := darkColor } }
    else
      -- Object.assign(text.style, originalStyle)
      Except.ok { text with style :=
        { text.style with
            fill := originalStyle.fill, color := originalStyle.color,
            fontSize := originalStyle.fontSize,
            fontWeight := originalStyle.fontWeight,
            fontFamily := originalStyle.fontFamily,
            textDecoration := originalStyle.textDecoration } }

/-- The gt-table callback (unguarded write of `style.color`). -/
def tableUpdate (isDarkMode : Bool) (table : Elem) : Elem :=
  if isDarkMode then { table with style := { table.style with color := "white" } }
  else { table with style := { table.style with color := "" } }

/-- `.rt-tbody .rt-tr, .rt-thead .rt-tr, .rt-pagination` callback. -/
def rtRowUpdate (isDarkMode : Bool) (elem : Elem) : Elem :=
  updateStyle (fun s => s.color) (fun s v => { s with color := v }) isDarkMode
    "" (if isDarkMode then "white" else "") elem

/-- `.rt-search` callback (unguarded writes). -/
def rtSearchUpdate (isDarkMode : Bool) (input : Elem) : Elem :=
  if isDarkMode then
    { input with style := { input.style with
        backgroundColor := "rgb(50, 50, 50)", color := "white",
        borderColor := "rgba(255, 255, 255, 0.2)" } }
  else
    { input with style := { input.style with
        backgroundColor := "", color := "", borderColor := "" } }

/-- First `.rt-pagination button` block: in dark mode set the transition style
and attach `click`, `mouseenter`, `mouseleave` listeners; no light branch. -/
def pagButtonUpdate1 (isDarkMode : Bool) (button : Elem) : Elem :=
  if isDarkMode then
    { button with
        style := { button.style with transition := "background-color 0.2s" },
        listeners := { button.listeners with
            click := button.listeners.click + 1,
            mouseenter := button.listeners.mouseenter + 1,
            mouseleave := button.listeners.mouseleave + 1 } }
  else button

/-- Second `.rt-pagination button` block: in dark mode set the transition style
and attach `mouseenter`, `mouseleave`, `mousedown`, `mouseup` listeners; in
light mode only clear the transition style.  No listener is ever removed. -/
def pagButtonUpdate2 (isDarkMode : Bool) (button : Elem) : Elem :=
  if isDarkMode then
    { button with
        style := { button.style with transition := "background-color 0.2s" },
        listeners := { button.listeners with
            mouseenter := button.listeners.mouseenter + 1,
            mouseleave := button.listeners.mouseleave + 1,
            mousedown := button.listeners.mousedown + 1,
            mouseup := button.listeners.mouseup + 1 } }
  else { button with style := { button.style with transition := "" } }

/-- `.rt-pagination-nav button` callback. -/
def pagNavUpdate (isDarkMode : Bool) (button : Elem) : Elem :=
  if isDarkMode then
    { button with style := { button.style with color := "rgba(255, 255, 255, 0.7)" } }
  else { button with style := { button.style with color := "" } }

/-- `.rt-page-button-current` callback. -/
def pagCurrentUpdate (isDarkMode : Bool) (button : Elem) : Elem :=
  if isDarkMode then
    { button with style := { button.style with
        backgroundColor := "rgba(255, 255, 255, 0.2)", color := "white" } }
  else
    { button with style := { button.style with backgroundColor := "", color := "" } }

/-- `.rt-sort-header` callback. -/
def sortHeaderUpdate (isDarkMode : Bool) (header : Elem) : Elem :=
  if isDarkMode then { header with style := { header.style with color := "white" } }
  else { header with style := { header.style with color := "" } }

/-- Body of the `.reactable` callback in `light-dark.js`.  The callback never
uses the matched table element: every nested `updateElements` queries the
whole document again. -/
def reactableInner (isDarkMode : Bool) (doc : List Elem) : List Elem :=
  let doc := updateElements selRtRow (rtRowUpdate isDarkMode) doc
  let doc := updateElements selRtSearch (rtSearchUpdate isDarkMode) doc
  let doc := updateElements selPagButton (pagButtonUpdate1 isDarkMode) doc
  let doc := updateElements selPagButton (pagButtonUpdate2 isDarkMode) doc
  let doc := updateElements selPagNavButton (pagNavUpdate isDarkMode) doc
  let doc := updateElements selPagCurrent (pagCurrentUpdate isDarkMode) doc
  updateElements selSortHeader (sortHeaderUpdate isDarkMode) doc

/-- `updateImageSrc` from `src/light-dark.js` (extended variant). -/
def updateImageSrc (d : DOM) : Except Unit DOM :=
  let isLightMode := d.bodyClasses.contains "quarto-light"
  let isDarkMode := d.bodyClasses.contains "quarto-dark"
  if !isLightMode && !isDarkMode then Except.ok d  -- Exit if neither mode is active
  else do
    let doc := updateElements selImg (imgUpdate isLightMode isDarkMode) d.elems
    let doc := updateElements selSvgBackground
      (updateStyle (fun s => s.background) (fun s v => { s with background := v })
        isDarkMode "rgb(255, 241, 229)" "rgb(34, 34, 34)") doc
    let doc := updateElements selRectFill
      (updateStyle (fun s => s.fill) (fun s v => { s with fill := v })
        isDarkMode "rgb(255, 241, 229)" "rgb(34, 34, 34)") doc
    let doc ← updateElementsE selText (textUpdate isDarkMode "rgb(204,193,183)") doc
    let doc := updateElements selGt (tableUpdate isDarkMode) doc
    -- `.reactable` forEach: the inner updates run once per matched table
    let n := (doc.filter selReactable).length
    let doc := (reactableInner isDarkMode)^[n] doc
    Except.ok { d with elems := doc }

/-- `updateImageSrc` from `src/unnamed/part_000` (basic variant: no reactable
handling, and its dark branch writes `color = "white"` on text elements). -/
def updateImageSrcBasic (d : DOM) : Except Unit DOM :=
  let isLightMode := d.bodyClasses.contains "quarto-light"
  let isDarkMode := d.bodyClasses.contains "quarto-dark"
  if !isLightMode && !isDarkMode then Except.ok d  -- Exit if neither mode is active
  else do
    let doc := updateElements selImg (imgUpdate isLightMode isDarkMode) d.elems
    let doc := updateElements selSvgBackground
      (updateStyle (fun s => s.background) (fun s v => { s with background := v })
        isDarkMode "rgb(255, 241, 229)" "rgb(34, 34, 34)") doc
    let doc := updateElements selRectFill
      (updateStyle (fun s => s.fill) (fun s v => { s with fill := v })
        isDarkMode "rgb(255, 241, 229)" "rgb(34, 34, 34)") doc
    let doc ← updateElementsE selText (textUpdate isDarkMode "white") doc
    let doc := updateElements selGt (tableUpdate isDarkMode) doc
    Except.ok { d with elems := doc }

/-! ## Value-level characterizations

The equality guards (`if (currentValue !== newValue)`, `if (newSrc !== img.src)`)
never change the resulting state: skipping a write of an identical value yields
the same value.  The lemmas below eliminate them, giving each callback an
explicit record-update normal form.
-/

theorem imgUpdate_eq (isLightMode isDarkMode : Bool) (img : Elem) :
    imgUpdate isLightMode isDarkMode img =
      { img with src := (jsReplace img.src (if isLightMode then ".dark" else ".light") (if isDarkMode then ".dark" else ".light")) } := by
  simp only [imgUpdate]
  by_cases h : jsReplace img.src (if isLightMode then ".dark" else ".light") (if isDarkMode then ".dark" else ".light") ≠ img.src
  · rw [if_pos h]
  · rw [if_neg h]
    rw [not_not] at h
    rw [h]

theorem updateStyle_eq (get : Style → String) (set : Style → String → Style)
    (isDarkMode : Bool) (lightValue darkValue : String) (elem : Elem)
    (hid : set elem.style (get elem.style) = elem.style) :
    updateStyle get set isDarkMode lightValue darkValue elem =
      { elem with style := (set elem.style (if isDarkMode then darkValue else lightValue)) } := by
  simp only [updateStyle]
  by_cases h : get elem.style ≠ (if isDarkMode then darkValue else lightValue)
  · rw [if_pos h]
  · rw [if_neg h]
    rw [not_not] at h
    rw [← h, hid]

theorem rtRowUpdate_eq (isDarkMode : Bool) (elem : Elem) :
    rtRowUpdate isDarkMode elem =
      { elem with style :=
          { elem.style with color := if isDarkMode then "white" else "" } } := by
  unfold rtRowUpdate
  rw [updateStyle_eq _ _ _ _ _ _ rfl]
  cases isDarkMode <;> rfl

/-- The state reached by the snapshot-capture step. -/
def capture (e : Elem) : Elem :=
  if e.originalStyle.isNone then
    { e with originalStyle := some (StoredStyle.valid (computedOf e)) }
  else e

/-- The snapshot that `JSON.parse` yields after the capture step (meaningful
whenever the stored payload is not corrupt). -/
def origOf (e : Elem) : Snapshot :=
  match e.originalStyle with
  | some (StoredStyle.valid s) => s
  | _ => computedOf e

/-- The post-parse mutation of the text callback. -/
def textApply (isDarkMode : Bool) (darkColor : String) (orig : Snapshot)
    (e : Elem) : Elem :=
  if isDarkMode then
    { e with style := { e.style with fill := "white", color := darkColor } }
  else
    { e with style := { e.style with
        fill := orig.fill, color := orig.color, fontSize := orig.fontSize,
        fontWeight := orig.fontWeight, fontFamily := orig.fontFamily,
        textDecoration := orig.textDecoration } }

theorem textUpdate_corrupt (isDarkMode : Bool) (c : String) {e : Elem}
    (h : e.originalStyle = some StoredStyle.corrupt) :
    textUpdate isDarkMode c e = Except.error () := by
  simp [textUpdate, h, parseStored, Option.isNone]

theorem textUpdate_valid (isDarkMode : Bool) (c : String) {e : Elem} {s : Snapshot}
    (h : e.originalStyle = some (StoredStyle.valid s)) :
    textUpdate isDarkMode c e = Except.ok (textApply isDarkMode c s e) := by
  simp only [textUpdate, h, Option.isNone, Bool.false_eq_true, if_false, parseStored,
    textApply]
  split <;> rfl

theorem textUpdate_none (isDarkMode : Bool) (c : String) {e : Elem}
    (h : e.originalStyle = none) :
    textUpdate isDarkMode c e = Except.ok (textApply isDarkMode c (computedOf e)
      { e with originalStyle := some (StoredStyle.valid (computedOf e)) }) := by
  simp only [textUpdate, h, Option.isNone, if_true, parseStored, textApply]
  split <;> rfl

/-- One guarded selector application, with a thrown exception left unapplied
(used only to state the success characterization). -/
def applyE (sel : Elem → Bool) (f : Elem → Except Unit Elem) (e : Elem) : Elem :=
  if sel e then ((f e).toOption).getD e else e

theorem except_bind_ok {α β : Type} (a : α) (g : α → Except Unit β) :
    (Except.ok a >>= g) = g a := rfl

theorem except_bind_error {α β : Type} (g : α → Except Unit β) :
    ((Except.error () : Except Unit α) >>= g) = Except.error () := rfl

theorem updateElementsE_ok {sel : Elem → Bool} {f : Elem → Except Unit Elem} :
    ∀ {doc : List Elem}, (∀ e ∈ doc, sel e = true → ∃ e', f e = Except.ok e') →
      updateElementsE sel f doc = Except.ok (doc.map (applyE sel f)) := by
  intro doc
  induction doc with
  | nil => intro _; rfl
  | cons e t ih =>
    intro h
    have ht : ∀ x ∈ t, sel x = true → ∃ x', f x = Except.ok x' :=
      fun x hx => h x (List.mem_cons_of_mem _ hx)
    cases hse : sel e with
    | true =>
      obtain ⟨e', he'⟩ := h e (List.mem_cons_self e t) hse
      simp [updateElementsE, hse, he', ih ht, applyE, Except.toOption, except_bind_ok]
    | false =>
      simp [updateElementsE, hse, ih ht, applyE, except_bind_ok]

theorem updateElementsE_error {sel : Elem → Bool} {f : Elem → Except Unit Elem} :
    ∀ {doc : List Elem}, (∃ e ∈ doc, sel e = true ∧ f e = Except.error ()) →
      updateElementsE sel f doc = Except.error () := by
  intro doc
  induction doc with
  | nil => rintro ⟨e, he, _⟩; simp at he
  | cons a t ih =>
    rintro ⟨e, he, hsel, herr⟩
    rcases List.mem_cons.mp he with rfl | hmem
    · simp [updateElementsE, hsel, herr, except_bind_error]
    · by_cases hsa : sel a = true
      · cases hfa : f a with
        | error u =>
          cases u
          simp [updateElementsE, hsa, hfa, except_bind_error]
        | ok a' =>
          simp [updateElementsE, hsa, hfa, except_bind_ok, except_bind_error,
            ih ⟨e, hmem, hsel, herr⟩]
      · have hsa2 : sel a = false := by simpa using hsa
        simp [updateElementsE, hsa2, except_bind_ok, except_bind_error,
          ih ⟨e, hmem, hsel, herr⟩]

/-! ## Per-element step functions

Every block of the routine is `updateElements`, i.e. an elementwise map over
the document.  The guarded per-element functions below let the whole
invocation be expressed as a single `List.map`.
-/

def imgStep (isLightMode isDarkMode : Bool) (e : Elem) : Elem :=
  if selImg e then imgUpdate isLightMode isDarkMode e else e

def svgStep (isDarkMode : Bool) (e : Elem) : Elem :=
  if selSvgBackground e then
    updateStyle (fun s => s.background) (fun s v => { s with background := v })
      isDarkMode "rgb(255, 241, 229)" "rgb(34, 34, 34)" e
  else e

def rectStep (isDarkMode : Bool) (e : Elem) : Elem :=
  if selRectFill e then
    updateStyle (fun s => s.fill) (fun s v => { s with fill := v })
      isDarkMode "rgb(255, 241, 229)" "rgb(34, 34, 34)" e
  else e

def textStep (isDarkMode : Bool) (c : String) (e : Elem) : Elem :=
  applyE selText (textUpdate isDarkMode c) e

def gtStep (isDarkMode : Bool) (e : Elem) : Elem :=
  if selGt e then tableUpdate isDarkMode e else e

def rowStep (isDarkMode : Bool) (e : Elem) : Elem :=
  if selRtRow e then rtRowUpdate isDarkMode e else e

def searchStep (isDarkMode : Bool) (e : Elem) : Elem :=
  if selRtSearch e then rtSearchUpdate isDarkMode e else e

def btn1Step (isDarkMode : Bool) (e : Elem) : Elem :=
  if selPagButton e then pagButtonUpdate1 isDarkMode e else e

def btn2Step (isDarkMode : Bool) (e : Elem) : Elem :=
  if selPagButton e then pagButtonUpdate2 isDarkMode e else e

def navStep (isDarkMode : Bool) (e : Elem) : Elem :=
  if selPagNavButton e then pagNavUpdate isDarkMode e else e

def currentStep (isDarkMode : Bool) (e : Elem) : Elem :=
  if selPagCurrent e then pagCurrentUpdate isDarkMode e else e

def sortStep (isDarkMode : Bool) (e : Elem) : Elem :=
  if selSortHeader e then sortHeaderUpdate isDarkMode e else e

/-- One pass of the `.reactable` callback body, per element. -/
def innerStep (isDarkMode : Bool) (e : Elem) : Elem :=
  sortStep isDarkMode (currentStep isDarkMode (navStep isDarkMode
    (btn2Step isDarkMode (btn1Step isDarkMode
      (searchStep isDarkMode (rowStep isDarkMode e))))))

/-- The whole extended-variant invocation, per element (`n` is the number of
`.reactable` tables in the document). -/
def extStep (isLightMode isDarkMode : Bool) (n : Nat) (e : Elem) : Elem :=
  (innerStep isDarkMode)^[n] (gtStep isDarkMode
    (textStep isDarkMode "rgb(204,193,183)"
      (rectStep isDarkMode (svgStep isDarkMode (imgStep isLightMode isDarkMode e)))))

/-- The whole basic-variant invocation, per element. -/
def basicStep (isLightMode isDarkMode : Bool) (e : Elem) : Elem :=
  gtStep isDarkMode (textStep isDarkMode "white"
    (rectStep isDarkMode (svgStep isDarkMode (imgStep isLightMode isDarkMode e))))

/-! ## Step normal forms and preserved fields -/

theorem textStep_eq (isDarkMode : Bool) (c : String) (e : Elem)
    (h : e.originalStyle ≠ some StoredStyle.corrupt) :
    textStep isDarkMode c e =
      if selText e then textApply isDarkMode c (origOf e) (capture e) else e := by
  cases hp : e.originalStyle with
  | none =>
    simp only [textStep, applyE, textUpdate_none isDarkMode c hp, Except.toOption,
      origOf, capture, hp, Option.isNone, if_true, Option.getD]
  | some p =>
    cases p with
    | valid s =>
      simp only [textStep, applyE, textUpdate_valid isDarkMode c hp, Except.toOption,
        origOf, capture, hp, Option.isNone, Bool.false_eq_true, if_false, Option.getD]
    | corrupt => exact absurd hp h

/-- The selector-relevant fields never written by any step. -/
structure Core where
  tag : String
  classes : List String
  insideSvg : Bool
  insideRtTbody : Bool
  insideRtThead : Bool
  insideRtPagination : Bool
  insideRtPaginationNav : Bool
deriving DecidableEq, Repr

def coreOf (e : Elem) : Core :=
  ⟨e.tag, e.classes, e.insideSvg, e.insideRtTbody, e.insideRtThead,
    e.insideRtPagination, e.insideRtPaginationNav⟩

theorem selImg_core {a b : Elem} (h : coreOf a = coreOf b) : selImg a = selImg b := by
  simp only [selImg]; rw [show a.tag = b.tag from congrArg Core.tag h]

theorem selText_core {a b : Elem} (h : coreOf a = coreOf b) : selText a = selText b := by
  simp only [selText]
  rw [show a.tag = b.tag from congrArg Core.tag h,
    show a.classes = b.classes from congrArg Core.classes h,
    show a.insideSvg = b.insideSvg from congrArg Core.insideSvg h]

theorem selGt_core {a b : Elem} (h : coreOf a = coreOf b) : selGt a = selGt b := by
  simp only [selGt, hasClass]
  rw [show a.classes = b.classes from congrArg Core.classes h]

theorem selReactable_core {a b : Elem} (h : coreOf a = coreOf b) :
    selReactable a = selReactable b := by
  simp only [selReactable, hasClass]
  rw [show a.classes = b.classes from congrArg Core.classes h]

theorem selRtRow_core {a b : Elem} (h : coreOf a = coreOf b) :
    selRtRow a = selRtRow b := by
  simp only [selRtRow, hasClass]
  rw [show a.classes = b.classes from congrArg Core.classes h,
    show a.insideRtTbody = b.insideRtTbody from congrArg Core.insideRtTbody h,
    show a.insideRtThead = b.insideRtThead from congrArg Core.insideRtThead h]

theorem selRtSearch_core {a b : Elem} (h : coreOf a = coreOf b) :
    selRtSearch a = selRtSearch b := by
  simp only [selRtSearch, hasClass]
  rw [show a.classes = b.classes from congrArg Core.classes h]

theorem selPagButton_core {a b : Elem} (h : coreOf a = coreOf b) :
    selPagButton a = selPagButton b := by
  simp only [selPagButton]
  rw [show a.tag = b.tag from congrArg Core.tag h,
    show a.insideRtPagination = b.insideRtPagination from
      congrArg Core.insideRtPagination h]

theorem selPagNavButton_core {a b : Elem} (h : coreOf a = coreOf b) :
    selPagNavButton a = selPagNavButton b := by
  simp only [selPagNavButton]
  rw [show a.tag = b.tag from congrArg Core.tag h,
    show a.insideRtPaginationNav = b.insideRtPaginationNav from
      congrArg Core.insideRtPaginationNav h]

theorem selPagCurrent_core {a b : Elem} (h : coreOf a = coreOf b) :
    selPagCurrent a = selPagCurrent b := by
  simp only [selPagCurrent, hasClass]
  rw [show a.classes = b.classes from congrArg Core.classes h]

theorem selSortHeader_core {a b : Elem} (h : coreOf a = coreOf b) :
    selSortHeader a = selSortHeader b := by
  simp only [selSortHeader, hasClass]
  rw [show a.classes = b.classes from congrArg Core.classes h]

theorem coreOf_imgStep (isL isD : Bool) (e : Elem) :
    coreOf (imgStep isL isD e) = coreOf e := by
  unfold imgStep
  split
  · rw [imgUpdate_eq]; rfl
  · rfl

theorem coreOf_svgStep (isD : Bool) (e : Elem) :
    coreOf (svgStep isD e) = coreOf e := by
  unfold svgStep
  split
  · rw [updateStyle_eq _ _ _ _ _ _ rfl]; rfl
  · rfl

theorem coreOf_rectStep (isD : Bool) (e : Elem) :
    coreOf (rectStep isD e) = coreOf e := by
  unfold rectStep
  split
  · rw [updateStyle_eq _ _ _ _ _ _ rfl]; rfl
  · rfl

theorem coreOf_textApply (isD : Bool) (c : String) (o : Snapshot) (e : Elem) :
    coreOf (textApply isD c o e) = coreOf e := by
  unfold textApply
  split <;> rfl

theorem coreOf_capture (e : Elem) : coreOf (capture e) = coreOf e := by
  unfold capture
  split <;> rfl

theorem coreOf_textStep (isD : Bool) (c : String) (e : Elem) :
    coreOf (textStep isD c e) = coreOf e := by
  cases hp : e.originalStyle with
  | none =>
    simp only [textStep, applyE, textUpdate_none isD c hp, Except.toOption, Option.getD]
    split
    · exact (coreOf_textApply _ _ _ _).trans rfl
    · rfl
  | some p =>
    cases p with
    | valid s =>
      simp only [textStep, applyE, textUpdate_valid isD c hp, Except.toOption, Option.getD]
      split
      · exact (coreOf_textApply _ _ _ _).trans rfl
      · rfl
    | corrupt =>
      simp only [textStep, applyE, textUpdate_corrupt isD c hp, Except.toOption, Option.getD]
      split <;> rfl

theorem coreOf_gtStep (isD : Bool) (e : Elem) :
    coreOf (gtStep isD e) = coreOf e := by
  unfold gtStep tableUpdate
  split
  · split <;> rfl
  · rfl

theorem coreOf_rowStep (isD : Bool) (e : Elem) :
    coreOf (rowStep isD e) = coreOf e := by
  unfold rowStep
  split
  · rw [rtRowUpdate_eq]; rfl
  · rfl

theorem coreOf_searchStep (isD : Bool) (e : Elem) :
    coreOf (searchStep isD e) = coreOf e := by
  unfold searchStep rtSearchUpdate
  split
  · split <;> rfl
  · rfl

theorem coreOf_btn1Step (isD : Bool) (e : Elem) :
    coreOf (btn1Step isD e) = coreOf e := by
  unfold btn1Step pagButtonUpdate1
  split
  · split <;> rfl
  · rfl

theorem coreOf_btn2Step (isD : Bool) (e : Elem) :
    coreOf (btn2Step isD e) = coreOf e := by
  unfold btn2Step pagButtonUpdate2
  split
  · split <;> rfl
  · rfl

theorem coreOf_navStep (isD : Bool) (e : Elem) :
    coreOf (navStep isD e) = coreOf e := by
  unfold navStep pagNavUpdate
  split
  · split <;> rfl
  · rfl

theorem coreOf_currentStep (isD : Bool) (e : Elem) :
    coreOf (currentStep isD e) = coreOf e := by
  unfold currentStep pagCurrentUpdate
  split
  · split <;> rfl
  · rfl

theorem coreOf_sortStep (isD : Bool) (e : Elem) :
    coreOf (sortStep isD e) = coreOf e := by
  unfold sortStep sortHeaderUpdate
  split
  · split <;> rfl
  · rfl

theorem coreOf_innerStep (isD : Bool) (e : Elem) :
    coreOf (innerStep isD e) = coreOf e := by
  unfold innerStep
  rw [coreOf_sortStep, coreOf_currentStep, coreOf_navStep, coreOf_btn2Step,
    coreOf_btn1Step, coreOf_searchStep, coreOf_rowStep]

theorem coreOf_iterate_innerStep (isD : Bool) (n : Nat) (e : Elem) :
    coreOf ((innerStep isD)^[n] e) = coreOf e := by
  induction n with
  | zero => rfl
  | succ k ih => rw [Function.iterate_succ_apply', coreOf_innerStep, ih]

theorem coreOf_extStep (isL isD : Bool) (n : Nat) (e : Elem) :
    coreOf (extStep isL isD n e) = coreOf e := by
  unfold extStep
  rw [coreOf_iterate_innerStep, coreOf_gtStep, coreOf_textStep, coreOf_rectStep,
    coreOf_svgStep, coreOf_imgStep]

theorem coreOf_basicStep (isL isD : Bool) (e : Elem) :
    coreOf (basicStep isL isD e) = coreOf e := by
  unfold basicStep
  rw [coreOf_gtStep, coreOf_textStep, coreOf_rectStep, coreOf_svgStep, coreOf_imgStep]

theorem originalStyle_imgStep (isL isD : Bool) (e : Elem) :
    (imgStep isL isD e).originalStyle = e.originalStyle := by
  unfold imgStep
  split
  · rw [imgUpdate_eq]
  · rfl

theorem originalStyle_svgStep (isD : Bool) (e : Elem) :
    (svgStep isD e).originalStyle = e.originalStyle := by
  unfold svgStep
  split
  · rw [updateStyle_eq _ _ _ _ _ _ rfl]
  · rfl

theorem originalStyle_rectStep (isD : Bool) (e : Elem) :
    (rectStep isD e).originalStyle = e.originalStyle := by
  unfold rectStep
  split
  · rw [updateStyle_eq _ _ _ _ _ _ rfl]
  · rfl

theorem textUpdate_ok_exists (isD : Bool) (c : String) {e : Elem}
    (h : e.originalStyle ≠ some StoredStyle.corrupt) :
    ∃ e', textUpdate isD c e = Except.ok e' := by
  cases hp : e.originalStyle with
  | none => exact ⟨_, textUpdate_none isD c hp⟩
  | some p =>
    cases p with
    | valid s => exact ⟨_, textUpdate_valid isD c hp⟩
    | corrupt => exact absurd hp h

/-! ## Whole-invocation characterizations -/

theorem filter_length_map {f : Elem → Elem} {p : Elem → Bool}
    (hp : ∀ e, p (f e) = p e) :
    ∀ l : List Elem, ((l.map f).filter p).length = (l.filter p).length := by
  intro l
  induction l with
  | nil => rfl
  | cons a t ih =>
    simp only [List.map_cons, List.filter_cons, hp a]
    cases p a <;> simp [ih]

set_option maxHeartbeats 1000000 in
theorem reactableInner_map (isD : Bool) (doc : List Elem) :
    reactableInner isD doc = doc.map (innerStep isD) := by
  simp only [reactableInner, updateElements, List.map_map]
  apply List.map_congr_left
  intro e _
  simp only [Function.comp]
  rfl

theorem iterate_reactableInner (isD : Bool) :
    ∀ (n : Nat) (doc : List Elem),
      (reactableInner isD)^[n] doc = doc.map ((innerStep isD)^[n]) := by
  intro n
  induction n with
  | zero => intro doc; simp
  | succ k ih =>
    intro doc
    rw [Function.iterate_succ_apply', ih, reactableInner_map, List.map_map,
      Function.iterate_succ']

/-- If neither theme class is on the body, both variants return the document
unchanged. -/
theorem updateImageSrc_inactive {d : DOM}
    (h1 : d.bodyClasses.contains "quarto-light" = false)
    (h2 : d.bodyClasses.contains "quarto-dark" = false) :
    updateImageSrc d = Except.ok d ∧ updateImageSrcBasic d = Except.ok d := by
  have hcond : (!d.bodyClasses.contains "quarto-light" &&
      !d.bodyClasses.contains "quarto-dark") = true := by
    rw [h1, h2]; rfl
  constructor
  · simp only [updateImageSrc]
    rw [hcond, if_pos rfl]
  · simp only [updateImageSrcBasic]
    rw [hcond, if_pos rfl]

theorem updateImageSrc_ok_eq {d : DOM}
    (hact : d.bodyClasses.contains "quarto-light" = true ∨
      d.bodyClasses.contains "quarto-dark" = true)
    (hok : ∀ e ∈ d.elems, selText e = true →
      e.originalStyle ≠ some StoredStyle.corrupt) :
    updateImageSrc d = Except.ok ⟨d.bodyClasses, d.elems.map
      (extStep (d.bodyClasses.contains "quarto-light")
        (d.bodyClasses.contains "quarto-dark")
        ((d.elems.filter selReactable).length))⟩ := by
  have hcond : (!d.bodyClasses.contains "quarto-light" &&
      !d.bodyClasses.contains "quarto-dark") = false := by
    rcases hact with h | h
    · rw [h]; rfl
    · rw [h]
      simp only [Bool.not_true, Bool.and_false]
  simp only [updateImageSrc, hcond, Bool.false_eq_true, if_false]
  set isL := d.bodyClasses.contains "quarto-light" with hLdef
  set isD := d.bodyClasses.contains "quarto-dark" with hDdef
  have hB : updateElements selRectFill
      (updateStyle (fun s => s.fill) (fun s v => { s with fill := v }) isD
        "rgb(255, 241, 229)" "rgb(34, 34, 34)")
      (updateElements selSvgBackground
        (updateStyle (fun s => s.background) (fun s v => { s with background := v }) isD
          "rgb(255, 241, 229)" "rgb(34, 34, 34)")
        (updateElements selImg (imgUpdate isL isD) d.elems)) =
      d.elems.map (fun e => rectStep isD (svgStep isD (imgStep isL isD e))) := by
    simp only [updateElements, List.map_map]
    rfl
  rw [hB]
  have htext : ∀ e ∈ d.elems.map
      (fun e => rectStep isD (svgStep isD (imgStep isL isD e))),
      selText e = true →
      ∃ e', textUpdate isD "rgb(204,193,183)" e = Except.ok e' := by
    intro e he hsel
    obtain ⟨x, hx, rfl⟩ := List.mem_map.mp he
    apply textUpdate_ok_exists
    show (rectStep isD (svgStep isD (imgStep isL isD x))).originalStyle ≠
      some StoredStyle.corrupt
    rw [originalStyle_rectStep, originalStyle_svgStep, originalStyle_imgStep]
    apply hok x hx
    have hcore : coreOf (rectStep isD (svgStep isD (imgStep isL isD x))) = coreOf x := by
      rw [coreOf_rectStep, coreOf_svgStep, coreOf_imgStep]
    rw [← selText_core hcore]
    exact hsel
  rw [updateElementsE_ok htext, except_bind_ok]
  have hT : List.map (applyE selText (textUpdate isD "rgb(204,193,183)"))
      (d.elems.map (fun e => rectStep isD (svgStep isD (imgStep isL isD e)))) =
      d.elems.map (fun e => textStep isD "rgb(204,193,183)"
        (rectStep isD (svgStep isD (imgStep isL isD e)))) := by
    rw [List.map_map]
    rfl
  rw [hT]
  have hG : updateElements selGt (tableUpdate isD)
      (d.elems.map (fun e => textStep isD "rgb(204,193,183)"
        (rectStep isD (svgStep isD (imgStep isL isD e))))) =
      d.elems.map (fun e => gtStep isD (textStep isD "rgb(204,193,183)"
        (rectStep isD (svgStep isD (imgStep isL isD e))))) := by
    simp only [updateElements, List.map_map]
    rfl
  rw [hG]
  have hn : ((d.elems.map (fun e => gtStep isD (textStep isD "rgb(204,193,183)"
      (rectStep isD (svgStep isD (imgStep isL isD e)))))).filter
        selReactable).length = (d.elems.filter selReactable).length := by
    apply filter_length_map
    intro e
    apply selReactable_core
    rw [coreOf_gtStep, coreOf_textStep, coreOf_rectStep, coreOf_svgStep, coreOf_imgStep]
  rw [hn, iterate_reactableInner, List.map_map]
  rfl

theorem updateImageSrcBasic_ok_eq {d : DOM}
    (hact : d.bodyClasses.contains "quarto-light" = true ∨
      d.bodyClasses.contains "quarto-dark" = true)
    (hok : ∀ e ∈ d.elems, selText e = true →
      e.originalStyle ≠ some StoredStyle.corrupt) :
    updateImageSrcBasic d = Except.ok ⟨d.bodyClasses, d.elems.map
      (basicStep (d.bodyClasses.contains "quarto-light")
        (d.bodyClasses.contains "quarto-dark"))⟩ := by
  have hcond : (!d.bodyClasses.contains "quarto-light" &&
      !d.bodyClasses.contains "quarto-dark") = false := by
    rcases hact with h | h
    · rw [h]; rfl
    · rw [h]
      simp only [Bool.not_true, Bool.and_false]
  simp only [updateImageSrcBasic, hcond, Bool.false_eq_true, if_false]
  set isL := d.bodyClasses.contains "quarto-light" with hLdef
  set isD := d.bodyClasses.contains "quarto-dark" with hDdef
  have hB : updateElements selRectFill
      (updateStyle (fun s => s.fill) (fun s v => { s with fill := v }) isD
        "rgb(255, 241, 229)" "rgb(34, 34, 34)")
      (updateElements selSvgBackground
        (updateStyle (fun s => s.background) (fun s v => { s with background := v }) isD
          "rgb(255, 241, 229)" "rgb(34, 34, 34)")
        (updateElements selImg (imgUpdate isL isD) d.elems)) =
      d.elems.map (fun e => rectStep isD (svgStep isD (imgStep isL isD e))) := by
    simp only [updateElements, List.map_map]
    rfl
  rw [hB]
  have htext : ∀ e ∈ d.elems.map
      (fun e => rectStep isD (svgStep isD (imgStep isL isD e))),
      selText e = true →
      ∃ e', textUpdate isD "white" e = Except.ok e' := by
    intro e he hsel
    obtain ⟨x, hx, rfl⟩ := List.mem_map.mp he
    apply textUpdate_ok_exists
    show (rectStep isD (svgStep isD (imgStep isL isD x))).originalStyle ≠
      some StoredStyle.corrupt
    rw [originalStyle_rectStep, originalStyle_svgStep, originalStyle_imgStep]
    apply hok x hx
    have hcore : coreOf (rectStep isD (svgStep isD (imgStep isL isD x))) = coreOf x := by
      rw [coreOf_rectStep, coreOf_svgStep, coreOf_imgStep]
    rw [← selText_core hcore]
    exact hsel
  rw [updateElementsE_ok htext, except_bind_ok]
  have hT : List.map (applyE selText (textUpdate isD "white"))
      (d.elems.map (fun e => rectStep isD (svgStep isD (imgStep isL isD e)))) =
      d.elems.map (fun e => textStep isD "white"
        (rectStep isD (svgStep isD (imgStep isL isD e)))) := by
    rw [List.map_map]
    rfl
  rw [hT]
  have hG : updateElements selGt (tableUpdate isD)
      (d.elems.map (fun e => textStep isD "white"
        (rectStep isD (svgStep isD (imgStep isL isD e))))) =
      d.elems.map (fun e => gtStep isD (textStep isD "white"
        (rectStep isD (svgStep isD (imgStep isL isD e))))) := by
    simp only [updateElements, List.map_map]
    rfl
  rw [hG]
  rfl

theorem updateImageSrc_error_eq {d : DOM}
    (hact : d.bodyClasses.contains "quarto-light" = true ∨
      d.bodyClasses.contains "quarto-dark" = true)
    (hbad : ∃ e ∈ d.elems, selText e = true ∧
      e.originalStyle = some StoredStyle.corrupt) :
    updateImageSrc d = Except.error () := by
  have hcond : (!d.bodyClasses.contains "quarto-light" &&
      !d.bodyClasses.contains "quarto-dark") = false := by
    rcases hact with h | h
    · rw [h]; rfl
    · rw [h]
      simp only [Bool.not_true, Bool.and_false]
  simp only [updateImageSrc, hcond, Bool.false_eq_true, if_false]
  set isL := d.bodyClasses.contains "quarto-light" with hLdef
  set isD := d.bodyClasses.contains "quarto-dark" with hDdef
  have hB : updateElements selRectFill
      (updateStyle (fun s => s.fill) (fun s v => { s with fill := v }) isD
        "rgb(255, 241, 229)" "rgb(34, 34, 34)")
      (updateElements selSvgBackground
        (updateStyle (fun s => s.background) (fun s v => { s with background := v }) isD
          "rgb(255, 241, 229)" "rgb(34, 34, 34)")
        (updateElements selImg (imgUpdate isL isD) d.elems)) =
      d.elems.map (fun e => rectStep isD (svgStep isD (imgStep isL isD e))) := by
    simp only [updateElements, List.map_map]
    rfl
  rw [hB]
  obtain ⟨x, hx, hsel, hcorrupt⟩ := hbad
  have herr : updateElementsE selText (textUpdate isD "rgb(204,193,183)")
      (d.elems.map (fun e => rectStep isD (svgStep isD (imgStep isL isD e)))) =
      Except.error () := by
    apply updateElementsE_error
    refine ⟨rectStep isD (svgStep isD (imgStep isL isD x)),
      List.mem_map_of_mem _ hx, ?_, ?_⟩
    · have hcore : coreOf (rectStep isD (svgStep isD (imgStep isL isD x))) =
          coreOf x := by
        rw [coreOf_rectStep, coreOf_svgStep, coreOf_imgStep]
      rw [selText_core hcore]
      exact hsel
    · apply textUpdate_corrupt
      rw [originalStyle_rectStep, originalStyle_svgStep, originalStyle_imgStep]
      exact hcorrupt
  rw [herr, except_bind_error]

/-! ## Selector stability under record updates -/

theorem selImg_style (e : Elem) (s : Style) : selImg { e with style := s } = selImg e := rfl

theorem selImg_styleListen (e : Elem) (s : Style) (L : Listeners) :
    selImg { e with style := s, listeners := L } = selImg e := rfl

theorem selText_style (e : Elem) (s : Style) : selText { e with style := s } = selText e := rfl

theorem selText_styleListen (e : Elem) (s : Style) (L : Listeners) :
    selText { e with style := s, listeners := L } = selText e := rfl

theorem selGt_style (e : Elem) (s : Style) : selGt { e with style := s } = selGt e := rfl

theorem selGt_styleListen (e : Elem) (s : Style) (L : Listeners) :
    selGt { e with style := s, listeners := L } = selGt e := rfl

theorem selReactable_style (e : Elem) (s : Style) :
    selReactable { e with style := s } = selReactable e := rfl

theorem selRtRow_style (e : Elem) (s : Style) :
    selRtRow { e with style := s } = selRtRow e := rfl

theorem selRtRow_styleListen (e : Elem) (s : Style) (L : Listeners) :
    selRtRow { e with style := s, listeners := L } = selRtRow e := rfl

theorem selRtSearch_style (e : Elem) (s : Style) :
    selRtSearch { e with style := s } = selRtSearch e := rfl

theorem selRtSearch_styleListen (e : Elem) (s : Style) (L : Listeners) :
    selRtSearch { e with style := s, listeners := L } = selRtSearch e := rfl

theorem selPagButton_style (e : Elem) (s : Style) :
    selPagButton { e with style := s } = selPagButton e := rfl

theorem selPagButton_styleListen (e : Elem) (s : Style) (L : Listeners) :
    selPagButton { e with style := s, listeners := L } = selPagButton e := rfl

theorem selPagNavButton_style (e : Elem) (s : Style) :
    selPagNavButton { e with style := s } = selPagNavButton e := rfl

theorem selPagNavButton_styleListen (e : Elem) (s : Style) (L : Listeners) :
    selPagNavButton { e with style := s, listeners := L } = selPagNavButton e := rfl

theorem selPagCurrent_style (e : Elem) (s : Style) :
    selPagCurrent { e with style := s } = selPagCurrent e := rfl

theorem selPagCurrent_styleListen (e : Elem) (s : Style) (L : Listeners) :
    selPagCurrent { e with style := s, listeners := L } = selPagCurrent e := rfl

theorem selSortHeader_style (e : Elem) (s : Style) :
    selSortHeader { e with style := s } = selSortHeader e := rfl

theorem selSortHeader_styleListen (e : Elem) (s : Style) (L : Listeners) :
    selSortHeader { e with style := s, listeners := L } = selSortHeader e := rfl

/-! ## Normal form of one reactable pass, per element -/

/-- Value of `style.color` after one reactable pass (last writer wins). -/
def innerColor (isD : Bool) (e : Elem) : String :=
  if selSortHeader e then (if isD then "white" else "")
  else if selPagCurrent e then (if isD then "white" else "")
  else if selPagNavButton e then (if isD then "rgba(255, 255, 255, 0.7)" else "")
  else if selRtSearch e then (if isD then "white" else "")
  else if selRtRow e then (if isD then "white" else "")
  else e.style.color

/-- Value of `style.backgroundColor` after one reactable pass. -/
def innerBackgroundColor (isD : Bool) (e : Elem) : String :=
  if selPagCurrent e then (if isD then "rgba(255, 255, 255, 0.2)" else "")
  else if selRtSearch e then (if isD then "rgb(50, 50, 50)" else "")
  else e.style.backgroundColor

/-- Value of `style.borderColor` after one reactable pass. -/
def innerBorderColor (isD : Bool) (e : Elem) : String :=
  if selRtSearch e then (if isD then "rgba(255, 255, 255, 0.2)" else "")
  else e.style.borderColor

/-- Value of `style.transition` after one reactable pass. -/
def innerTransition (isD : Bool) (e : Elem) : String :=
  if selPagButton e then (if isD then "background-color 0.2s" else "")
  else e.style.transition

/-- Listener counts after one reactable pass: each dark pass attaches
`click` once and `mouseenter`/`mouseleave` twice (once per near-duplicate
block) and `mousedown`/`mouseup` once to every pagination button. -/
def innerListeners (isD : Bool) (e : Elem) : Listeners :=
  if isD && selPagButton e then
    { click := e.listeners.click + 1, mouseenter := e.listeners.mouseenter + 2,
      mouseleave := e.listeners.mouseleave + 2,
      mousedown := e.listeners.mousedown + 1, mouseup := e.listeners.mouseup + 1 }
  else e.listeners

set_option maxHeartbeats 4000000 in
theorem innerStep_eq (isD : Bool) (e : Elem) :
    innerStep isD e = { e with
      style := { e.style with
        color := innerColor isD e,
        backgroundColor := innerBackgroundColor isD e,
        borderColor := innerBorderColor isD e,
        transition := innerTransition isD e },
      listeners := innerListeners isD e } := by
  cases h1 : selRtRow e <;> cases h2 : selRtSearch e <;> cases h3 : selPagButton e <;>
    cases h4 : selPagNavButton e <;> cases h5 : selPagCurrent e <;>
    cases h6 : selSortHeader e <;> cases isD <;>
    simp [innerStep, sortStep, currentStep, navStep, btn2Step, btn1Step, searchStep,
      rowStep, rtRowUpdate_eq, rtSearchUpdate, pagButtonUpdate1, pagButtonUpdate2,
      pagNavUpdate, pagCurrentUpdate, sortHeaderUpdate, innerColor,
      innerBackgroundColor, innerBorderColor, innerTransition, innerListeners,
      h1, h2, h3, h4, h5, h6, selImg_style, selImg_styleListen, selText_style,
      selText_styleListen, selGt_style, selGt_styleListen, selReactable_style,
      selRtRow_style, selRtRow_styleListen, selRtSearch_style, selRtSearch_styleListen,
      selPagButton_style, selPagButton_styleListen, selPagNavButton_style,
      selPagNavButton_styleListen, selPagCurrent_style, selPagCurrent_styleListen,
      selSortHeader_style, selSortHeader_styleListen]

set_option maxHeartbeats 4000000 in
theorem iterate_innerStep_eq (isD : Bool) (n : Nat) (e : Elem) :
    (innerStep isD)^[n + 1] e = { e with
      style := { e.style with
        color := innerColor isD e,
        backgroundColor := innerBackgroundColor isD e,
        borderColor := innerBorderColor isD e,
        transition := innerTransition isD e },
      listeners := if isD && selPagButton e then
        { click := e.listeners.click + (n + 1),
          mouseenter := e.listeners.mouseenter + 2 * (n + 1),
          mouseleave := e.listeners.mouseleave + 2 * (n + 1),
          mousedown := e.listeners.mousedown + (n + 1),
          mouseup := e.listeners.mouseup + (n + 1) }
      else e.listeners } := by
  induction n generalizing e with
  | zero =>
    rw [Function.iterate_one, innerStep_eq]
    cases hb : (isD && selPagButton e) <;>
      simp [innerListeners, hb, Elem.mk.injEq, Style.mk.injEq, Listeners.mk.injEq]
  | succ k ih =>
    rw [Function.iterate_succ_apply', ih, innerStep_eq]
    cases h1 : selRtRow e <;> cases h2 : selRtSearch e <;> cases h3 : selPagButton e <;>
      cases h4 : selPagNavButton e <;> cases h5 : selPagCurrent e <;>
      cases h6 : selSortHeader e <;> cases isD <;>
      simp [innerColor, innerBackgroundColor, innerBorderColor, innerTransition,
        innerListeners, h1, h2, h3, h4, h5, h6,
        selRtRow_styleListen, selRtSearch_styleListen, selPagButton_styleListen,
        selPagNavButton_styleListen, selPagCurrent_styleListen, selSortHeader_styleListen,
        selRtRow_style, selRtSearch_style, selPagButton_style,
        selPagNavButton_style, selPagCurrent_style, selSortHeader_style,
        Elem.mk.injEq, Style.mk.injEq, Listeners.mk.injEq] <;> omega

theorem selImg_src (e : Elem) (v : String) : selImg { e with src := v } = selImg e := rfl

theorem selSvgBackground_src (e : Elem) (v : String) :
    selSvgBackground { e with src := v } = selSvgBackground e := rfl

theorem selRectFill_src (e : Elem) (v : String) :
    selRectFill { e with src := v } = selRectFill e := rfl

theorem selText_src (e : Elem) (v : String) : selText { e with src := v } = selText e := rfl

theorem selGt_src (e : Elem) (v : String) : selGt { e with src := v } = selGt e := rfl

theorem selReactable_src (e : Elem) (v : String) :
    selReactable { e with src := v } = selReactable e := rfl

theorem selGt_payload (e : Elem) (p : Option StoredStyle) :
    selGt { e with originalStyle := p } = selGt e := rfl

theorem selText_payload (e : Elem) (p : Option StoredStyle) :
    selText { e with originalStyle := p } = selText e := rfl

theorem selReactable_payload (e : Elem) (p : Option StoredStyle) :
    selReactable { e with originalStyle := p } = selReactable e := rfl

theorem selGt_stylePayload (e : Elem) (s : Style) (p : Option StoredStyle) :
    selGt { e with style := s, originalStyle := p } = selGt e := rfl

theorem selRectFill_payload (e : Elem) (p : Option StoredStyle) :
    selRectFill { e with originalStyle := p } = selRectFill e := rfl

theorem selSvgBackground_payload (e : Elem) (p : Option StoredStyle) :
    selSvgBackground { e with originalStyle := p } = selSvgBackground e := rfl

theorem tag_selText {e : Elem} (h : selText e = true) :
    e.tag = "text" ∨ e.tag = "tspan" := by
  simp only [selText, Bool.or_eq_true, Bool.and_eq_true, beq_iff_eq] at h
  rcases h with ⟨h1, _⟩ | ⟨_, h2⟩
  · exact Or.inl h1
  · exact h2

theorem selImg_false_of_selText {e : Elem} (h : selText e = true) :
    selImg e = false := by
  rcases tag_selText h with ht | ht <;> simp [selImg, ht]

theorem selSvgBackground_false_of_selText {e : Elem} (h : selText e = true) :
    selSvgBackground e = false := by
  rcases tag_selText h with ht | ht <;> simp [selSvgBackground, ht]

theorem selRectFill_false_of_selText {e : Elem} (h : selText e = true) :
    selRectFill e = false := by
  rcases tag_selText h with ht | ht <;> simp [selRectFill, ht]

theorem imgStep_eq (isL isD : Bool) (e : Elem) :
    imgStep isL isD e = if selImg e then
      { e with src := (jsReplace e.src (if isL then ".dark" else ".light") (if isD then ".dark" else ".light")) }
    else e := by
  cases hs : selImg e
  · simp [imgStep, hs]
  · simp only [imgStep, hs]
    rw [imgUpdate_eq]

theorem svgStep_eq (isD : Bool) (e : Elem) :
    svgStep isD e = if selSvgBackground e then
      { e with style := { e.style with
          background := if isD then "rgb(34, 34, 34)" else "rgb(255, 241, 229)" } }
    else e := by
  cases hs : selSvgBackground e
  · simp [svgStep, hs]
  · simp only [svgStep, hs]
    rw [updateStyle_eq _ _ _ _ _ _ rfl]

theorem rectStep_eq (isD : Bool) (e : Elem) :
    rectStep isD e = if selRectFill e then
      { e with style := { e.style with
          fill := if isD then "rgb(34, 34, 34)" else "rgb(255, 241, 229)" } }
    else e := by
  cases hs : selRectFill e
  · simp [rectStep, hs]
  · simp only [rectStep, hs]
    rw [updateStyle_eq _ _ _ _ _ _ rfl]

theorem gtStep_eq (isD : Bool) (e : Elem) :
    gtStep isD e = if selGt e then
      { e with style := { e.style with color := if isD then "white" else "" } }
    else e := by
  cases hs : selGt e
  · simp [gtStep, hs]
  · cases isD <;> simp [gtStep, tableUpdate, hs]

/-- The non-reactable part of an invocation (all of the basic variant; the
extended variant follows it with `n` reactable passes). -/
def preStep (isLightMode isDarkMode : Bool) (c : String) (e : Elem) : Elem :=
  gtStep isDarkMode (textStep isDarkMode c
    (rectStep isDarkMode (svgStep isDarkMode (imgStep isLightMode isDarkMode e))))

theorem extStep_decomp (isL isD : Bool) (n : Nat) (e : Elem) :
    extStep isL isD n e = (innerStep isD)^[n] (preStep isL isD "rgb(204,193,183)" e) := rfl

theorem basicStep_decomp (isL isD : Bool) (e : Elem) :
    basicStep isL isD e = preStep isL isD "white" e := rfl

theorem selRectFill_srcBg (e : Elem) (v bg : String) :
    selRectFill { e with src := v, style := { e.style with background := bg } } =
      selRectFill e := rfl

theorem selRectFill_bg (e : Elem) (bg : String) :
    selRectFill { e with style := { e.style with background := bg } } =
      selRectFill e := rfl

theorem selGt_srcStyle (e : Elem) (v : String) (s : Style) :
    selGt { e with src := v, style := s } = selGt e := rfl

set_option maxHeartbeats 4000000 in
theorem preStep_eq (isL isD : Bool) (c : String) (e : Elem)
    (h : selText e = true → e.originalStyle ≠ some StoredStyle.corrupt) :
    preStep isL isD c e = { e with
      src := if selImg e then (jsReplace e.src (if isL then ".dark" else ".light") (if isD then ".dark" else ".light")) else e.src,
      style := { e.style with
        background := if selSvgBackground e then (if isD then "rgb(34, 34, 34)" else "rgb(255, 241, 229)") else e.style.background,
        fill := if selText e then (if isD then "white" else (origOf e).fill)
          else if selRectFill e then (if isD then "rgb(34, 34, 34)" else "rgb(255, 241, 229)") else e.style.fill,
        color := if selGt e then (if isD then "white" else "")
          else if selText e then (if isD then c else (origOf e).color) else e.style.color,
        fontSize := if selText e && !isD then (origOf e).fontSize else e.style.fontSize,
        fontWeight := if selText e && !isD then (origOf e).fontWeight else e.style.fontWeight,
        fontFamily := if selText e && !isD then (origOf e).fontFamily else e.style.fontFamily,
        textDecoration := if selText e && !isD then (origOf e).textDecoration else e.style.textDecoration },
      originalStyle := if selText e && e.originalStyle.isNone then some (StoredStyle.valid (computedOf e)) else e.originalStyle } := by
  cases hT : selText e
  · have hc3 : coreOf (rectStep isD (svgStep isD (imgStep isL isD e))) = coreOf e := by
      rw [coreOf_rectStep, coreOf_svgStep, coreOf_imgStep]
    have hT3 : selText (rectStep isD (svgStep isD (imgStep isL isD e))) = false := by
      rw [selText_core hc3]
      exact hT
    have htext : textStep isD c (rectStep isD (svgStep isD (imgStep isL isD e))) =
        rectStep isD (svgStep isD (imgStep isL isD e)) := by
      simp [textStep, applyE, hT3]
    unfold preStep
    rw [htext, imgStep_eq, svgStep_eq, rectStep_eq, gtStep_eq]
    cases hI : selImg e <;> cases hS : selSvgBackground e <;>
      cases hR : selRectFill e <;> cases hG : selGt e <;> cases isD <;>
      simp [hI, hS, hR, hG, hT, selSvgBackground_src, selRectFill_src, selGt_src,
        selGt_style, selRectFill_payload, selSvgBackground_payload,
        selRectFill_srcBg, selRectFill_bg, selGt_srcStyle,
        Elem.mk.injEq, Style.mk.injEq]
  · have hI : selImg e = false := selImg_false_of_selText hT
    have hS : selSvgBackground e = false := selSvgBackground_false_of_selText hT
    have hR : selRectFill e = false := selRectFill_false_of_selText hT
    unfold preStep
    rw [imgStep_eq, svgStep_eq, rectStep_eq]
    simp only [hI, hS, hR, Bool.false_eq_true, if_false]
    rw [textStep_eq isD c e (h hT)]
    simp only [hT, if_true]
    rw [gtStep_eq]
    cases hG : selGt e <;> cases isD <;> cases hp : e.originalStyle.isNone <;>
      simp [hG, hT, hp, textApply, capture, selGt_style, selGt_payload,
        selGt_stylePayload, Elem.mk.injEq, Style.mk.injEq]

/-! ## Full normal forms of one invocation, per element -/

/-- Image source after an invocation. -/
def preSrc (isL isD : Bool) (e : Elem) : String :=
  if selImg e then
    jsReplace e.src (if isL then ".dark" else ".light") (if isD then ".dark" else ".light")
  else e.src

/-- Inline style after the non-reactable part of an invocation. -/
def preStyle (isD : Bool) (c : String) (e : Elem) : Style :=
  { e.style with
    background := if selSvgBackground e then (if isD then "rgb(34, 34, 34)" else "rgb(255, 241, 229)") else e.style.background,
    fill := if selText e then (if isD then "white" else (origOf e).fill)
      else if selRectFill e then (if isD then "rgb(34, 34, 34)" else "rgb(255, 241, 229)") else e.style.fill,
    color := if selGt e then (if isD then "white" else "")
      else if selText e then (if isD then c else (origOf e).color) else e.style.color,
    fontSize := if selText e && !isD then (origOf e).fontSize else e.style.fontSize,
    fontWeight := if selText e && !isD then (origOf e).fontWeight else e.style.fontWeight,
    fontFamily := if selText e && !isD then (origOf e).fontFamily else e.style.fontFamily,
    textDecoration := if selText e && !isD then (origOf e).textDecoration else e.style.textDecoration }

/-- Snapshot cache after an invocation: captured exactly when the element is
text-matched and no record is present yet, otherwise untouched. -/
def prePayload (e : Elem) : Option StoredStyle :=
  if selText e && e.originalStyle.isNone then
    some (StoredStyle.valid (computedOf e))
  else e.originalStyle

theorem preStep_eq2 (isL isD : Bool) (c : String) (e : Elem)
    (h : selText e = true → e.originalStyle ≠ some StoredStyle.corrupt) :
    preStep isL isD c e = { e with
      src := preSrc isL isD e,
      style := preStyle isD c e,
      originalStyle := prePayload e } := by
  rw [preStep_eq isL isD c e h]
  rfl

theorem selRtRow_full (e : Elem) (v : String) (s : Style) (p : Option StoredStyle) :
    selRtRow { e with src := v, style := s, originalStyle := p } = selRtRow e := rfl

theorem selRtSearch_full (e : Elem) (v : String) (s : Style) (p : Option StoredStyle) :
    selRtSearch { e with src := v, style := s, originalStyle := p } = selRtSearch e := rfl

theorem selPagButton_full (e : Elem) (v : String) (s : Style) (p : Option StoredStyle) :
    selPagButton { e with src := v, style := s, originalStyle := p } = selPagButton e := rfl

theorem selPagNavButton_full (e : Elem) (v : String) (s : Style) (p : Option StoredStyle) :
    selPagNavButton { e with src := v, style := s, originalStyle := p } =
      selPagNavButton e := rfl

theorem selPagCurrent_full (e : Elem) (v : String) (s : Style) (p : Option StoredStyle) :
    selPagCurrent { e with src := v, style := s, originalStyle := p } =
      selPagCurrent e := rfl

theorem selSortHeader_full (e : Elem) (v : String) (s : Style) (p : Option StoredStyle) :
    selSortHeader { e with src := v, style := s, originalStyle := p } =
      selSortHeader e := rfl

/-- Inline style after a whole extended-variant invocation. -/
def extStyle (isD : Bool) (c : String) (n : Nat) (e : Elem) : Style :=
  if n = 0 then preStyle isD c e else
  { preStyle isD c e with
    color := if selSortHeader e then (if isD then "white" else "")
      else if selPagCurrent e then (if isD then "white" else "")
      else if selPagNavButton e then (if isD then "rgba(255, 255, 255, 0.7)" else "")
      else if selRtSearch e then (if isD then "white" else "")
      else if selRtRow e then (if isD then "white" else "")
      else (preStyle isD c e).color,
    backgroundColor := if selPagCurrent e then (if isD then "rgba(255, 255, 255, 0.2)" else "")
      else if selRtSearch e then (if isD then "rgb(50, 50, 50)" else "")
      else e.style.backgroundColor,
    borderColor := if selRtSearch e then (if isD then "rgba(255, 255, 255, 0.2)" else "")
      else e.style.borderColor,
    transition := if selPagButton e then (if isD then "background-color 0.2s" else "")
      else e.style.transition }

/-- Listener counts after a whole extended-variant invocation with `n`
reactable tables: each dark invocation attaches `n` fresh `click`/`mousedown`/
`mouseup` listeners and `2 * n` fresh `mouseenter`/`mouseleave` listeners to
every pagination button, and nothing is ever removed. -/
def extListeners (isD : Bool) (n : Nat) (e : Elem) : Listeners :=
  if isD && selPagButton e then
    { click := e.listeners.click + n, mouseenter := e.listeners.mouseenter + 2 * n,
      mouseleave := e.listeners.mouseleave + 2 * n,
      mousedown := e.listeners.mousedown + n, mouseup := e.listeners.mouseup + n }
  else e.listeners

set_option maxHeartbeats 8000000 in
theorem extStep_eq_full (isL isD : Bool) (n : Nat) (e : Elem)
    (h : selText e = true → e.originalStyle ≠ some StoredStyle.corrupt) :
    extStep isL isD n e = { e with
      src := preSrc isL isD e,
      style := extStyle isD "rgb(204,193,183)" n e,
      originalStyle := prePayload e,
      listeners := extListeners isD n e } := by
  rw [extStep_decomp, preStep_eq2 isL isD _ e h]
  cases n with
  | zero =>
    cases hb : (isD && selPagButton e) <;>
      simp [extStyle, extListeners, hb, Elem.mk.injEq, Listeners.mk.injEq]
  | succ m =>
    rw [iterate_innerStep_eq]
    cases h1 : selRtRow e <;> cases h2 : selRtSearch e <;> cases h3 : selPagButton e <;>
      cases h4 : selPagNavButton e <;> cases h5 : selPagCurrent e <;>
      cases h6 : selSortHeader e <;> cases isD <;>
      simp [innerColor, innerBackgroundColor, innerBorderColor, innerTransition,
        extStyle, extListeners, preStyle, h1, h2, h3, h4, h5, h6,
        selRtRow_full, selRtSearch_full, selPagButton_full, selPagNavButton_full,
        selPagCurrent_full, selSortHeader_full,
        Elem.mk.injEq, Style.mk.injEq, Listeners.mk.injEq]

theorem extStyle_background (isD : Bool) (c : String) (n : Nat) (e : Elem) :
    (extStyle isD c n e).background = (preStyle isD c e).background := by
  unfold extStyle
  split <;> rfl

theorem extStyle_fill (isD : Bool) (c : String) (n : Nat) (e : Elem) :
    (extStyle isD c n e).fill = (preStyle isD c e).fill := by
  unfold extStyle
  split <;> rfl

theorem extStyle_fontSize (isD : Bool) (c : String) (n : Nat) (e : Elem) :
    (extStyle isD c n e).fontSize = (preStyle isD c e).fontSize := by
  unfold extStyle
  split <;> rfl

theorem extStyle_fontWeight (isD : Bool) (c : String) (n : Nat) (e : Elem) :
    (extStyle isD c n e).fontWeight = (preStyle isD c e).fontWeight := by
  unfold extStyle
  split <;> rfl

theorem extStyle_fontFamily (isD : Bool) (c : String) (n : Nat) (e : Elem) :
    (extStyle isD c n e).fontFamily = (preStyle isD c e).fontFamily := by
  unfold extStyle
  split <;> rfl

theorem extStyle_textDecoration (isD : Bool) (c : String) (n : Nat) (e : Elem) :
    (extStyle isD c n e).textDecoration = (preStyle isD c e).textDecoration := by
  unfold extStyle
  split <;> rfl

theorem prePayload_of_selText {e : Elem} (hT : selText e = true)
    (hok : e.originalStyle ≠ some StoredStyle.corrupt) :
    prePayload e = some (StoredStyle.valid (origOf e)) := by
  unfold prePayload origOf
  cases hp : e.originalStyle with
  | none => simp [hT, hp, Option.isNone]
  | some p =>
    cases p with
    | valid s => simp [hT, hp, Option.isNone]
    | corrupt => exact absurd hp hok

theorem origOf_of_payload {e : Elem} {s : Snapshot}
    (h : e.originalStyle = some (StoredStyle.valid s)) : origOf e = s := by
  unfold origOf
  rw [h]

theorem src_extStep (isL isD : Bool) (n : Nat) (e : Elem)
    (h : selText e = true → e.originalStyle ≠ some StoredStyle.corrupt) :
    (extStep isL isD n e).src = preSrc isL isD e := by
  rw [extStep_eq_full isL isD n e h]

theorem style_extStep (isL isD : Bool) (n : Nat) (e : Elem)
    (h : selText e = true → e.originalStyle ≠ some StoredStyle.corrupt) :
    (extStep isL isD n e).style = extStyle isD "rgb(204,193,183)" n e := by
  rw [extStep_eq_full isL isD n e h]

theorem payload_extStep (isL isD : Bool) (n : Nat) (e : Elem)
    (h : selText e = true → e.originalStyle ≠ some StoredStyle.corrupt) :
    (extStep isL isD n e).originalStyle = prePayload e := by
  rw [extStep_eq_full isL isD n e h]

theorem listeners_extStep (isL isD : Bool) (n : Nat) (e : Elem)
    (h : selText e = true → e.originalStyle ≠ some StoredStyle.corrupt) :
    (extStep isL isD n e).listeners = extListeners isD n e := by
  rw [extStep_eq_full isL isD n e h]

theorem selSvgBackground_extStep (isL isD : Bool) (n : Nat) (e : Elem)
    (h : selText e = true → e.originalStyle ≠ some StoredStyle.corrupt) :
    selSvgBackground (extStep isL isD n e) = selSvgBackground e := by
  have htag : (extStep isL isD n e).tag = e.tag :=
    congrArg Core.tag (coreOf_extStep isL isD n e)
  have hbg : (extStep isL isD n e).style.background =
      (preStyle isD "rgb(204,193,183)" e).background := by
    rw [style_extStep isL isD n e h, extStyle_background]
  show ((extStep isL isD n e).tag == "svg" &&
    (extStep isL isD n e).style.background != "") = selSvgBackground e
  rw [htag, hbg]
  cases hs : selSvgBackground e
  · have hb2 : (preStyle isD "rgb(204,193,183)" e).background = e.style.background := by
      unfold preStyle
      simp [hs]
    rw [hb2]
    exact hs
  · have hb2 : (preStyle isD "rgb(204,193,183)" e).background =
        (if isD then "rgb(34, 34, 34)" else "rgb(255, 241, 229)") := by
      unfold preStyle
      simp [hs]
    rw [hb2]
    have h12 : (e.tag == "svg") = true ∧ (e.style.background != "") = true := by
      simpa [selSvgBackground, Bool.and_eq_true] using hs
    cases isD <;> simp [h12.1]

theorem selRectFill_extStep (isL isD : Bool) (n : Nat) (e : Elem)
    (h : selText e = true → e.originalStyle ≠ some StoredStyle.corrupt) :
    selRectFill (extStep isL isD n e) = selRectFill e := by
  have htag : (extStep isL isD n e).tag = e.tag :=
    congrArg Core.tag (coreOf_extStep isL isD n e)
  have hfill : (extStep isL isD n e).style.fill =
      (preStyle isD "rgb(204,193,183)" e).fill := by
    rw [style_extStep isL isD n e h, extStyle_fill]
  show ((extStep isL isD n e).tag == "rect" &&
    (extStep isL isD n e).style.fill != "") = selRectFill e
  rw [htag, hfill]
  cases hT : selText e
  · cases hs : selRectFill e
    · have hb2 : (preStyle isD "rgb(204,193,183)" e).fill = e.style.fill := by
        unfold preStyle
        simp [hT, hs]
      rw [hb2]
      exact hs
    · have hb2 : (preStyle isD "rgb(204,193,183)" e).fill =
          (if isD then "rgb(34, 34, 34)" else "rgb(255, 241, 229)") := by
        unfold preStyle
        simp [hT, hs]
      rw [hb2]
      have h12 : (e.tag == "rect") = true ∧ (e.style.fill != "") = true := by
        simpa [selRectFill, Bool.and_eq_true] using hs
      cases isD <;> simp [h12.1]
  · rw [selRectFill_false_of_selText hT]
    rcases tag_selText hT with ht | ht <;> simp [ht]

theorem jsReplace_self (s pat : String) : jsReplace s pat pat = s := by
  unfold jsReplace
  rw [replFirst_self]
  rfl

theorem jsReplace_idem {s pat rep : String} (hp : pat.toList ≠ [])
    (has : appendSafe pat.toList rep.toList = true)
    (hhs : headSafe pat.toList rep.toList = true)
    (hc : countOcc pat.toList s.toList ≤ 1) :
    jsReplace (jsReplace s pat rep) pat rep = jsReplace s pat rep := by
  unfold jsReplace
  rw [show (String.mk (replFirst pat.toList rep.toList s.toList)).toList =
    replFirst pat.toList rep.toList s.toList from rfl]
  rw [replFirst_idem hp has hhs hc]

theorem preStyle_background (isD : Bool) (c : String) (e : Elem) :
    (preStyle isD c e).background =
      if selSvgBackground e then (if isD then "rgb(34, 34, 34)" else "rgb(255, 241, 229)")
      else e.style.background := rfl

theorem preStyle_fill (isD : Bool) (c : String) (e : Elem) :
    (preStyle isD c e).fill =
      if selText e then (if isD then "white" else (origOf e).fill)
      else if selRectFill e then (if isD then "rgb(34, 34, 34)" else "rgb(255, 241, 229)")
      else e.style.fill := rfl

theorem preStyle_color (isD : Bool) (c : String) (e : Elem) :
    (preStyle isD c e).color =
      if selGt e then (if isD then "white" else "")
      else if selText e then (if isD then c else (origOf e).color)
      else e.style.color := rfl

theorem preStyle_fontSize (isD : Bool) (c : String) (e : Elem) :
    (preStyle isD c e).fontSize =
      if selText e && !isD then (origOf e).fontSize else e.style.fontSize := rfl

theorem preStyle_fontWeight (isD : Bool) (c : String) (e : Elem) :
    (preStyle isD c e).fontWeight =
      if selText e && !isD then (origOf e).fontWeight else e.style.fontWeight := rfl

theorem preStyle_fontFamily (isD : Bool) (c : String) (e : Elem) :
    (preStyle isD c e).fontFamily =
      if selText e && !isD then (origOf e).fontFamily else e.style.fontFamily := rfl

theorem preStyle_textDecoration (isD : Bool) (c : String) (e : Elem) :
    (preStyle isD c e).textDecoration =
      if selText e && !isD then (origOf e).textDecoration
      else e.style.textDecoration := rfl

theorem extStyle_color_eq (isD : Bool) (c : String) (n : Nat) (e : Elem) :
    (extStyle isD c n e).color =
      if n = 0 then (preStyle isD c e).color
      else if selSortHeader e then (if isD then "white" else "")
      else if selPagCurrent e then (if isD then "white" else "")
      else if selPagNavButton e then (if isD then "rgba(255, 255, 255, 0.7)" else "")
      else if selRtSearch e then (if isD then "white" else "")
      else if selRtRow e then (if isD then "white" else "")
      else (preStyle isD c e).color := by
  unfold extStyle
  split <;> rfl

theorem extStyle_backgroundColor_eq (isD : Bool) (c : String) (n : Nat) (e : Elem) :
    (extStyle isD c n e).backgroundColor =
      if n = 0 then e.style.backgroundColor
      else if selPagCurrent e then (if isD then "rgba(255, 255, 255, 0.2)" else "")
      else if selRtSearch e then (if isD then "rgb(50, 50, 50)" else "")
      else e.style.backgroundColor := by
  unfold extStyle
  split <;> rfl

theorem extStyle_borderColor_eq (isD : Bool) (c : String) (n : Nat) (e : Elem) :
    (extStyle isD c n e).borderColor =
      if n = 0 then e.style.borderColor
      else if selRtSearch e then (if isD then "rgba(255, 255, 255, 0.2)" else "")
      else e.style.borderColor := by
  unfold extStyle
  split <;> rfl

theorem extStyle_transition_eq (isD : Bool) (c : String) (n : Nat) (e : Elem) :
    (extStyle isD c n e).transition =
      if n = 0 then e.style.transition
      else if selPagButton e then (if isD then "background-color 0.2s" else "")
      else e.style.transition := by
  unfold extStyle
  split <;> rfl

/-- Forget the listener state of an element. -/
def stripListeners (e : Elem) : Elem := { e with listeners := {} }

/-- Forget the listener state of a whole document. -/
def stripDom (d : DOM) : DOM := { d with elems := d.elems.map stripListeners }

set_option maxHeartbeats 4000000 in
theorem extStep_idem (isL isD : Bool) (n : Nat) (e : Elem)
    (hok : selText e = true → e.originalStyle ≠ some StoredStyle.corrupt)
    (hsrc : selImg e = true →
      countOcc ((if isL then ".dark" else ".light") : String).toList e.src.toList ≤ 1) :
    stripListeners (extStep isL isD n (extStep isL isD n e)) =
      stripListeners (extStep isL isD n e) := by
  have hcore := coreOf_extStep isL isD n e
  have hT := selText_core hcore
  have hG := selGt_core hcore
  have hI := selImg_core hcore
  have hRow := selRtRow_core hcore
  have hSearch := selRtSearch_core hcore
  have hPag := selPagButton_core hcore
  have hNav := selPagNavButton_core hcore
  have hCur := selPagCurrent_core hcore
  have hSort := selSortHeader_core hcore
  have hSvg := selSvgBackground_extStep isL isD n e hok
  have hRect := selRectFill_extStep isL isD n e hok
  have hpayE := payload_extStep isL isD n e hok
  have hstyE := style_extStep isL isD n e hok
  have hsrcE := src_extStep isL isD n e hok
  have hokE : selText (extStep isL isD n e) = true →
      (extStep isL isD n e).originalStyle ≠ some StoredStyle.corrupt := by
    rw [hT, hpayE]
    intro ht
    rw [prePayload_of_selText ht (hok ht)]
    intro hc
    injection hc with hc2
    exact StoredStyle.noConfusion hc2
  have horig : selText e = true →
      origOf (extStep isL isD n e) = origOf e := by
    intro ht
    exact origOf_of_payload (by rw [hpayE, prePayload_of_selText ht (hok ht)])
  have hsrc2 : preSrc isL isD (extStep isL isD n e) = (extStep isL isD n e).src := by
    unfold preSrc
    rw [hI, hsrcE]
    cases hi : selImg e
    · simp [hi]
    · simp only [hi, if_true]
      unfold preSrc
      simp only [hi, if_true]
      cases isL <;> cases isD
      · show jsReplace (jsReplace e.src ".light" ".light") ".light" ".light" =
          jsReplace e.src ".light" ".light"
        exact jsReplace_self _ _
      · show jsReplace (jsReplace e.src ".light" ".dark") ".light" ".dark" =
          jsReplace e.src ".light" ".dark"
        exact jsReplace_idem (by decide) safe_light_to_dark.1 safe_light_to_dark.2
          (by simpa using hsrc hi)
      · show jsReplace (jsReplace e.src ".dark" ".light") ".dark" ".light" =
          jsReplace e.src ".dark" ".light"
        exact jsReplace_idem (by decide) safe_dark_to_light.1 safe_dark_to_light.2
          (by simpa using hsrc hi)
      · show jsReplace (jsReplace e.src ".dark" ".dark") ".dark" ".dark" =
          jsReplace e.src ".dark" ".dark"
        exact jsReplace_self _ _
  have hpay2 : prePayload (extStep isL isD n e) = (extStep isL isD n e).originalStyle := by
    unfold prePayload
    rw [hT, hpayE]
    cases ht : selText e
    · simp [ht]
    · rw [prePayload_of_selText ht (hok ht)]
      simp [ht, Option.isNone]
  have hstyF : extStyle isD "rgb(204,193,183)" n (extStep isL isD n e) =
      extStyle isD "rgb(204,193,183)" n e := by
    apply Style.ext
    · -- background
      rw [extStyle_background, extStyle_background, preStyle_background,
        preStyle_background, hSvg]
      cases hs : selSvgBackground e
      · simp only [hs, Bool.false_eq_true, if_false]
        rw [hstyE, extStyle_background, preStyle_background]
        simp [hs]
      · simp [hs]
    · -- fill
      rw [extStyle_fill, extStyle_fill, preStyle_fill, preStyle_fill, hT, hRect]
      cases ht : selText e
      · simp only [ht, Bool.false_eq_true, if_false]
        cases hr : selRectFill e
        · simp only [hr, Bool.false_eq_true, if_false]
          rw [hstyE, extStyle_fill, preStyle_fill]
          simp [ht, hr]
        · simp [hr]
      · simp only [ht, if_true]
        rw [horig ht]
    · -- color
      rw [extStyle_color_eq, extStyle_color_eq, preStyle_color, preStyle_color,
        hSort, hCur, hNav, hSearch, hRow, hG, hT]
      cases ht : selText e
      · simp only [ht, Bool.false_eq_true, if_false]
        split_ifs <;> try rfl
        all_goals rw [hstyE, extStyle_color_eq, preStyle_color]
        all_goals simp_all
      · simp only [ht, if_true]
        rw [horig ht]
    · -- fontSize
      rw [extStyle_fontSize, extStyle_fontSize, preStyle_fontSize,
        preStyle_fontSize, hT]
      cases ht : selText e
      · simp only [ht, Bool.false_and, Bool.false_eq_true, if_false]
        rw [hstyE, extStyle_fontSize, preStyle_fontSize]
        simp [ht]
      · cases hd : isD
        · simp only [ht, hd, Bool.not_false, Bool.and_self, if_true]
          rw [hd] at horig
          rw [horig ht]
        · simp only [ht, hd, Bool.not_true, Bool.and_false, Bool.false_eq_true, if_false]
          rw [hd] at hstyE
          rw [hstyE, extStyle_fontSize, preStyle_fontSize]
          simp [ht, hd]
    · -- fontWeight
      rw [extStyle_fontWeight, extStyle_fontWeight, preStyle_fontWeight,
        preStyle_fontWeight, hT]
      cases ht : selText e
      · simp only [ht, Bool.false_and, Bool.false_eq_true, if_false]
        rw [hstyE, extStyle_fontWeight, preStyle_fontWeight]
        simp [ht]
      · cases hd : isD
        · simp only [ht, hd, Bool.not_false, Bool.and_self, if_true]
          rw [hd] at horig
          rw [horig ht]
        · simp only [ht, hd, Bool.not_true, Bool.and_false, Bool.false_eq_true, if_false]
          rw [hd] at hstyE
          rw [hstyE, extStyle_fontWeight, preStyle_fontWeight]
          simp [ht, hd]
    · -- fontFamily
      rw [extStyle_fontFamily, extStyle_fontFamily, preStyle_fontFamily,
        preStyle_fontFamily, hT]
      cases ht : selText e
      · simp only [ht, Bool.false_and, Bool.false_eq_true, if_false]
        rw [hstyE, extStyle_fontFamily, preStyle_fontFamily]
        simp [ht]
      · cases hd : isD
        · simp only [ht, hd, Bool.not_false, Bool.and_self, if_true]
          rw [hd] at horig
          rw [horig ht]
        · simp only [ht, hd, Bool.not_true, Bool.and_false, Bool.false_eq_true, if_false]
          rw [hd] at hstyE
          rw [hstyE, extStyle_fontFamily, preStyle_fontFamily]
          simp [ht, hd]
    · -- textDecoration
      rw [extStyle_textDecoration, extStyle_textDecoration, preStyle_textDecoration,
        preStyle_textDecoration, hT]
      cases ht : selText e
      · simp only [ht, Bool.false_and, Bool.false_eq_true, if_false]
        rw [hstyE, extStyle_textDecoration, preStyle_textDecoration]
        simp [ht]
      · cases hd : isD
        · simp only [ht, hd, Bool.not_false, Bool.and_self, if_true]
          rw [hd] at horig
          rw [horig ht]
        · simp only [ht, hd, Bool.not_true, Bool.and_false, Bool.false_eq_true, if_false]
          rw [hd] at hstyE
          rw [hstyE, extStyle_textDecoration, preStyle_textDecoration]
          simp [ht, hd]
    · -- backgroundColor
      rw [extStyle_backgroundColor_eq, extStyle_backgroundColor_eq, hCur, hSearch]
      split_ifs <;> try rfl
      all_goals rw [hstyE, extStyle_backgroundColor_eq]
      all_goals simp_all
    · -- borderColor
      rw [extStyle_borderColor_eq, extStyle_borderColor_eq, hSearch]
      split_ifs <;> try rfl
      all_goals rw [hstyE, extStyle_borderColor_eq]
      all_goals simp_all
    · -- transition
      rw [extStyle_transition_eq, extStyle_transition_eq, hPag]
      split_ifs <;> try rfl
      all_goals rw [hstyE, extStyle_transition_eq]
      all_goals simp_all
  have hsty2 : extStyle isD "rgb(204,193,183)" n (extStep isL isD n e) =
      (extStep isL isD n e).style := hstyF.trans hstyE.symm
  rw [extStep_eq_full isL isD n (extStep isL isD n e) hokE, hsrc2, hsty2, hpay2]
  unfold stripListeners
  rfl

/-! ## Elimination helpers for a successful run -/

theorem run_ok_elim {d d2 : DOM}
    (hact : d.bodyClasses.contains "quarto-light" = true ∨
      d.bodyClasses.contains "quarto-dark" = true)
    (hrun : updateImageSrc d = Except.ok d2) :
    (∀ e ∈ d.elems, selText e = true → e.originalStyle ≠ some StoredStyle.corrupt) ∧
    d2 = ⟨d.bodyClasses, d.elems.map
      (extStep (d.bodyClasses.contains "quarto-light")
        (d.bodyClasses.contains "quarto-dark")
        ((d.elems.filter selReactable).length))⟩ := by
  have hok : ∀ e ∈ d.elems, selText e = true →
      e.originalStyle ≠ some StoredStyle.corrupt := by
    intro e he hsel hcor
    have herr := updateImageSrc_error_eq hact ⟨e, he, hsel, hcor⟩
    rw [herr] at hrun
    exact Except.noConfusion hrun
  have hchar := updateImageSrc_ok_eq hact hok
  rw [hchar] at hrun
  injection hrun with h2
  exact ⟨hok, h2.symm⟩

theorem runBasic_ok_elim {d d2 : DOM}
    (hact : d.bodyClasses.contains "quarto-light" = true ∨
      d.bodyClasses.contains "quarto-dark" = true)
    (hrun : updateImageSrcBasic d = Except.ok d2) :
    (∀ e ∈ d.elems, selText e = true → e.originalStyle ≠ some StoredStyle.corrupt) ∧
    d2 = ⟨d.bodyClasses, d.elems.map
      (basicStep (d.bodyClasses.contains "quarto-light")
        (d.bodyClasses.contains "quarto-dark"))⟩ := by
  have hok : ∀ e ∈ d.elems, selText e = true →
      e.originalStyle ≠ some StoredStyle.corrupt := by
    intro e he hsel hcor
    have hcond : (!d.bodyClasses.contains "quarto-light" &&
        !d.bodyClasses.contains "quarto-dark") = false := by
      rcases hact with h | h
      · rw [h]; rfl
      · rw [h]
        simp only [Bool.not_true, Bool.and_false]
    have herr : updateImageSrcBasic d = Except.error () := by
      simp only [updateImageSrcBasic, hcond, Bool.false_eq_true, if_false]
      set isL := d.bodyClasses.contains "quarto-light" with hLdef
      set isD := d.bodyClasses.contains "quarto-dark" with hDdef
      have hB : updateElements selRectFill
          (updateStyle (fun s => s.fill) (fun s v => { s with fill := v }) isD
            "rgb(255, 241, 229)" "rgb(34, 34, 34)")
          (updateElements selSvgBackground
            (updateStyle (fun s => s.background) (fun s v => { s with background := v }) isD
              "rgb(255, 241, 229)" "rgb(34, 34, 34)")
            (updateElements selImg (imgUpdate isL isD) d.elems)) =
          d.elems.map (fun x => rectStep isD (svgStep isD (imgStep isL isD x))) := by
        simp only [updateElements, List.map_map]
        rfl
      rw [hB]
      have herr2 : updateElementsE selText (textUpdate isD "white")
          (d.elems.map (fun x => rectStep isD (svgStep isD (imgStep isL isD x)))) =
          Except.error () := by
        apply updateElementsE_error
        refine ⟨rectStep isD (svgStep isD (imgStep isL isD e)),
          List.mem_map_of_mem _ he, ?_, ?_⟩
        · have hcore2 : coreOf (rectStep isD (svgStep isD (imgStep isL isD e))) =
              coreOf e := by
            rw [coreOf_rectStep, coreOf_svgStep, coreOf_imgStep]
          rw [selText_core hcore2]
          exact hsel
        · apply textUpdate_corrupt
          rw [originalStyle_rectStep, originalStyle_svgStep, originalStyle_imgStep]
          exact hcor
      rw [herr2, except_bind_error]
    rw [herr] at hrun
    exact Except.noConfusion hrun
  have hchar := updateImageSrcBasic_ok_eq hact hok
  rw [hchar] at hrun
  injection hrun with h2
  exact ⟨hok, h2.symm⟩

/-! ## Claims -/

/-- C3: if the body's class list contains neither of the two recognized theme
tokens (`quarto-light`, `quarto-dark`), an invocation of the sync routine (in
either variant) returns immediately with the document unchanged: every image
src, every inline style and every per-element snapshot record is exactly as
before. -/
theorem c3_no_theme_no_op (d : DOM)
    (h1 : d.bodyClasses.contains "quarto-light" = false)
    (h2 : d.bodyClasses.contains "quarto-dark" = false) :
    updateImageSrc d = Except.ok d ∧ updateImageSrcBasic d = Except.ok d :=
  updateImageSrc_inactive h1 h2

/-- Witness for C3 at a concrete themeless document. -/
theorem c3_no_theme_no_op_witness :
    ((["section"] : List String).contains "quarto-light" = false) ∧
    updateImageSrc ⟨["section"], [{ tag := "img", src := "a.light.png" }]⟩ =
      Except.ok ⟨["section"], [{ tag := "img", src := "a.light.png" }]⟩ :=
  ⟨by decide,
    (c3_no_theme_no_op ⟨["section"], [{ tag := "img", src := "a.light.png" }]⟩
      (by decide) (by decide)).1⟩

/-- C4: rewriting of `img` sources.  With dark mode active, an image source
containing the `.light` marker has that (first) marker replaced by `.dark`;
symmetrically `.dark` becomes `.light` when light mode is active; a source
not containing the relevant marker is left untouched.  In particular with
body class `quarto-dark`, src `chart.light.png` becomes `chart.dark.png`. -/
theorem c4_img_rewrite (d d2 : DOM) (hrun : updateImageSrc d = Except.ok d2)
    (i : Nat) (e : Elem) (he : d.elems[i]? = some e) (himg : e.tag = "img") :
    (d.bodyClasses.contains "quarto-dark" = true →
      d.bodyClasses.contains "quarto-light" = false →
      (listSub ".light".toList e.src.toList = true →
        ∃ a b, e.src.toList = a ++ ".light".toList ++ b ∧
          ∃ e2, d2.elems[i]? = some e2 ∧ e2.src.toList = a ++ ".dark".toList ++ b) ∧
      (listSub ".light".toList e.src.toList = false →
        ∃ e2, d2.elems[i]? = some e2 ∧ e2.src = e.src) ∧
      (e.src = "chart.light.png" →
        ∃ e2, d2.elems[i]? = some e2 ∧ e2.src = "chart.dark.png")) ∧
    (d.bodyClasses.contains "quarto-light" = true →
      d.bodyClasses.contains "quarto-dark" = false →
      (listSub ".dark".toList e.src.toList = true →
        ∃ a b, e.src.toList = a ++ ".dark".toList ++ b ∧
          ∃ e2, d2.elems[i]? = some e2 ∧ e2.src.toList = a ++ ".light".toList ++ b) ∧
      (listSub ".dark".toList e.src.toList = false →
        ∃ e2, d2.elems[i]? = some e2 ∧ e2.src = e.src)) := by
  constructor
  · intro hD hL
    obtain ⟨hok, hd2⟩ := run_ok_elim (Or.inr hD) hrun
    subst hd2
    have hmem := List.getElem?_mem he
    have hoke : selText e = true → e.originalStyle ≠ some StoredStyle.corrupt :=
      hok e hmem
    have hsel : selImg e = true := by simp [selImg, himg]
    have hsrcF : (extStep (d.bodyClasses.contains "quarto-light")
        (d.bodyClasses.contains "quarto-dark")
        ((d.elems.filter selReactable).length) e).src =
        jsReplace e.src ".light" ".dark" := by
      rw [src_extStep _ _ _ _ hoke]
      unfold preSrc
      rw [hL, hD]
      simp [hsel]
    have hget : (d.elems.map (extStep (d.bodyClasses.contains "quarto-light")
        (d.bodyClasses.contains "quarto-dark")
        ((d.elems.filter selReactable).length)))[i]? =
        some (extStep (d.bodyClasses.contains "quarto-light")
          (d.bodyClasses.contains "quarto-dark")
          ((d.elems.filter selReactable).length) e) := by
      rw [List.getElem?_map, he]
      rfl
    refine ⟨?_, ?_, ?_⟩
    · intro hsub
      obtain ⟨a, b, hab, hrf⟩ :=
        @sub_decomp ".light".toList ".dark".toList (by decide) e.src.toList hsub
      refine ⟨a, b, hab, _, hget, ?_⟩
      rw [hsrcF]
      show replFirst ".light".toList ".dark".toList e.src.toList =
        a ++ ".dark".toList ++ b
      exact hrf
    · intro hnsub
      refine ⟨_, hget, ?_⟩
      rw [hsrcF]
      unfold jsReplace
      rw [replFirst_of_not_sub hnsub]
      rfl
    · intro hchart
      refine ⟨_, hget, ?_⟩
      rw [hsrcF, hchart]
      decide
  · intro hL hD
    obtain ⟨hok, hd2⟩ := run_ok_elim (Or.inl hL) hrun
    subst hd2
    have hmem := List.getElem?_mem he
    have hoke : selText e = true → e.originalStyle ≠ some StoredStyle.corrupt :=
      hok e hmem
    have hsel : selImg e = true := by simp [selImg, himg]
    have hsrcF : (extStep (d.bodyClasses.contains "quarto-light")
        (d.bodyClasses.contains "quarto-dark")
        ((d.elems.filter selReactable).length) e).src =
        jsReplace e.src ".dark" ".light" := by
      rw [src_extStep _ _ _ _ hoke]
      unfold preSrc
      rw [hL, hD]
      simp [hsel]
    have hget : (d.elems.map (extStep (d.bodyClasses.contains "quarto-light")
        (d.bodyClasses.contains "quarto-dark")
        ((d.elems.filter selReactable).length)))[i]? =
        some (extStep (d.bodyClasses.contains "quarto-light")
          (d.bodyClasses.contains "quarto-dark")
          ((d.elems.filter selReactable).length) e) := by
      rw [List.getElem?_map, he]
      rfl
    constructor
    · intro hsub
      obtain ⟨a, b, hab, hrf⟩ :=
        @sub_decomp ".dark".toList ".light".toList (by decide) e.src.toList hsub
      refine ⟨a, b, hab, _, hget, ?_⟩
      rw [hsrcF]
      show replFirst ".dark".toList ".light".toList e.src.toList =
        a ++ ".light".toList ++ b
      exact hrf
    · intro hnsub
      refine ⟨_, hget, ?_⟩
      rw [hsrcF]
      unfold jsReplace
      rw [replFirst_of_not_sub hnsub]
      rfl

/-- Witness for C4: the spec's own scenario, `chart.light.png` under
`quarto-dark`. -/
theorem c4_img_rewrite_witness :
    (updateImageSrc ⟨["quarto-dark"], [{ tag := "img", src := "chart.light.png" }]⟩ =
      Except.ok ⟨["quarto-dark"], [{ tag := "img", src := "chart.dark.png" }]⟩) ∧
    (∃ e2, (DOM.mk ["quarto-dark"] [{ tag := "img", src := "chart.dark.png" }]).elems[0]? =
      some e2 ∧ e2.src = "chart.dark.png") := by
  constructor
  · decide
  · exact ((c4_img_rewrite
      ⟨["quarto-dark"], [{ tag := "img", src := "chart.light.png" }]⟩
      ⟨["quarto-dark"], [{ tag := "img", src := "chart.dark.png" }]⟩
      (by decide) 0 { tag := "img", src := "chart.light.png" }
      (by decide) rfl).1 (by decide) (by decide)).2.2 rfl

theorem selText_false_of_tag {e : Elem} (h1 : e.tag ≠ "text") (h2 : e.tag ≠ "tspan") :
    selText e = false := by
  cases h : selText e
  · rfl
  · rcases tag_selText h with ht | ht
    · exact absurd ht h1
    · exact absurd ht h2

/-- C5: fixed color mapping for background-bearing `svg` elements and
fill-bearing `rect` elements: after a dark invocation the property is exactly
`rgb(34, 34, 34)`; after a light invocation exactly `rgb(255, 241, 229)`. -/
theorem c5_fixed_colors (d d2 : DOM) (hrun : updateImageSrc d = Except.ok d2)
    (i : Nat) (e : Elem) (he : d.elems[i]? = some e) :
    (d.bodyClasses.contains "quarto-dark" = true →
      (e.tag = "svg" → e.style.background ≠ "" →
        ∃ e2, d2.elems[i]? = some e2 ∧ e2.style.background = "rgb(34, 34, 34)") ∧
      (e.tag = "rect" → e.style.fill ≠ "" →
        ∃ e2, d2.elems[i]? = some e2 ∧ e2.style.fill = "rgb(34, 34, 34)")) ∧
    (d.bodyClasses.contains "quarto-light" = true →
      d.bodyClasses.contains "quarto-dark" = false →
      (e.tag = "svg" → e.style.background ≠ "" →
        ∃ e2, d2.elems[i]? = some e2 ∧ e2.style.background = "rgb(255, 241, 229)") ∧
      (e.tag = "rect" → e.style.fill ≠ "" →
        ∃ e2, d2.elems[i]? = some e2 ∧ e2.style.fill = "rgb(255, 241, 229)")) := by
  have main : ∀ hact : d.bodyClasses.contains "quarto-light" = true ∨
      d.bodyClasses.contains "quarto-dark" = true,
      (e.tag = "svg" → e.style.background ≠ "" →
        ∃ e2, d2.elems[i]? = some e2 ∧ e2.style.background =
          (if d.bodyClasses.contains "quarto-dark" then "rgb(34, 34, 34)" else "rgb(255, 241, 229)")) ∧
      (e.tag = "rect" → e.style.fill ≠ "" →
        ∃ e2, d2.elems[i]? = some e2 ∧ e2.style.fill =
          (if d.bodyClasses.contains "quarto-dark" then "rgb(34, 34, 34)" else "rgb(255, 241, 229)")) := by
    intro hact
    obtain ⟨hok, hd2⟩ := run_ok_elim hact hrun
    subst hd2
    have hmem := List.getElem?_mem he
    have hoke : selText e = true → e.originalStyle ≠ some StoredStyle.corrupt :=
      hok e hmem
    have hget : (d.elems.map (extStep (d.bodyClasses.contains "quarto-light")
        (d.bodyClasses.contains "quarto-dark")
        ((d.elems.filter selReactable).length)))[i]? =
        some (extStep (d.bodyClasses.contains "quarto-light")
          (d.bodyClasses.contains "quarto-dark")
          ((d.elems.filter selReactable).length) e) := by
      rw [List.getElem?_map, he]
      rfl
    constructor
    · intro htag hbg
      refine ⟨_, hget, ?_⟩
      have hsel : selSvgBackground e = true := by
        simp [selSvgBackground, htag, hbg]
      rw [style_extStep _ _ _ _ hoke, extStyle_background, preStyle_background, hsel]
      simp
    · intro htag hfill
      refine ⟨_, hget, ?_⟩
      have hsel : selRectFill e = true := by
        simp [selRectFill, htag, hfill]
      have hTf : selText e = false :=
        selText_false_of_tag (by rw [htag]; decide) (by rw [htag]; decide)
      rw [style_extStep _ _ _ _ hoke, extStyle_fill, preStyle_fill, hsel, hTf]
      simp
  constructor
  · intro hD
    have h := main (Or.inr hD)
    rw [hD] at h
    simpa using h
  · intro hL hD
    have h := main (Or.inl hL)
    rw [hD] at h
    simpa using h

/-- Witness for C5 at a concrete dark document with one `svg` and one `rect`. -/
theorem c5_fixed_colors_witness :
    (updateImageSrc ⟨["quarto-dark"],
      [{ tag := "svg", style := { background := "blue" } },
       { tag := "rect", style := { fill := "red" } }]⟩ =
      Except.ok ⟨["quarto-dark"],
        [{ tag := "svg", style := { background := "rgb(34, 34, 34)" } },
         { tag := "rect", style := { fill := "rgb(34, 34, 34)" } }]⟩) ∧
    (∃ e2, (DOM.mk ["quarto-dark"]
        [{ tag := "svg", style := { background := "rgb(34, 34, 34)" } },
         { tag := "rect", style := { fill := "rgb(34, 34, 34)" } }]).elems[0]? = some e2 ∧
      e2.style.background = "rgb(34, 34, 34)") := by
  constructor
  · decide
  · exact ((c5_fixed_colors
      ⟨["quarto-dark"],
        [{ tag := "svg", style := { background := "blue" } },
         { tag := "rect", style := { fill := "red" } }]⟩
      ⟨["quarto-dark"],
        [{ tag := "svg", style := { background := "rgb(34, 34, 34)" } },
         { tag := "rect", style := { fill := "rgb(34, 34, 34)" } }]⟩
      (by decide) 0 { tag := "svg", style := { background := "blue" } }
      (by decide)).1 (by decide)).1 rfl (by decide)

/-- C9: with both `quarto-light` and `quarto-dark` on the body, image sources
are left unchanged (the rewrite degenerates to replacing `.dark` with
`.dark`), while the style-based steps apply the dark-mode values: svg
backgrounds and rect fills get the dark constant, text fills become white, gt
table text becomes white, and a plain (classless) text element's color becomes
`rgb(204,193,183)`. -/
theorem c9_both_classes (d d2 : DOM)
    (hL : d.bodyClasses.contains "quarto-light" = true)
    (hD : d.bodyClasses.contains "quarto-dark" = true)
    (hrun : updateImageSrc d = Except.ok d2)
    (i : Nat) (e : Elem) (he : d.elems[i]? = some e) :
    (e.tag = "img" → ∃ e2, d2.elems[i]? = some e2 ∧ e2.src = e.src) ∧
    (e.tag = "svg" → e.style.background ≠ "" →
      ∃ e2, d2.elems[i]? = some e2 ∧ e2.style.background = "rgb(34, 34, 34)") ∧
    (e.tag = "rect" → e.style.fill ≠ "" →
      ∃ e2, d2.elems[i]? = some e2 ∧ e2.style.fill = "rgb(34, 34, 34)") ∧
    (selText e = true → ∃ e2, d2.elems[i]? = some e2 ∧ e2.style.fill = "white") ∧
    (selGt e = true → selPagNavButton e = false →
      ∃ e2, d2.elems[i]? = some e2 ∧ e2.style.color = "white") ∧
    (selText e = true → e.classes = [] →
      ∃ e2, d2.elems[i]? = some e2 ∧ e2.style.color = "rgb(204,193,183)") := by
  obtain ⟨hok, hd2⟩ := run_ok_elim (Or.inr hD) hrun
  subst hd2
  have hmem := List.getElem?_mem he
  have hoke : selText e = true → e.originalStyle ≠ some StoredStyle.corrupt :=
    hok e hmem
  have hget : (d.elems.map (extStep (d.bodyClasses.contains "quarto-light")
      (d.bodyClasses.contains "quarto-dark")
      ((d.elems.filter selReactable).length)))[i]? =
      some (extStep (d.bodyClasses.contains "quarto-light")
        (d.bodyClasses.contains "quarto-dark")
        ((d.elems.filter selReactable).length) e) := by
    rw [List.getElem?_map, he]
    rfl
  refine ⟨?_, ?_, ?_, ?_, ?_, ?_⟩
  · intro htag
    refine ⟨_, hget, ?_⟩
    have hsel : selImg e = true := by simp [selImg, htag]
    rw [src_extStep _ _ _ _ hoke]
    unfold preSrc
    rw [hL, hD]
    simp only [hsel, if_true]
    exact jsReplace_self _ _
  · intro htag hbg
    refine ⟨_, hget, ?_⟩
    have hsel : selSvgBackground e = true := by simp [selSvgBackground, htag, hbg]
    rw [style_extStep _ _ _ _ hoke, extStyle_background, preStyle_background, hsel, hD]
    simp
  · intro htag hfill
    refine ⟨_, hget, ?_⟩
    have hsel : selRectFill e = true := by simp [selRectFill, htag, hfill]
    have hTf : selText e = false :=
      selText_false_of_tag (by rw [htag]; decide) (by rw [htag]; decide)
    rw [style_extStep _ _ _ _ hoke, extStyle_fill, preStyle_fill, hsel, hTf, hD]
    simp
  · intro hsel
    refine ⟨_, hget, ?_⟩
    rw [style_extStep _ _ _ _ hoke, extStyle_fill, preStyle_fill, hsel, hD]
    simp
  · intro hsel hnav
    refine ⟨_, hget, ?_⟩
    rw [style_extStep _ _ _ _ hoke, extStyle_color_eq, preStyle_color, hsel, hnav, hD]
    by_cases hn : (d.elems.filter selReactable).length = 0 <;>
      cases h6 : selSortHeader e <;> cases h5 : selPagCurrent e <;>
      cases h2 : selRtSearch e <;> cases h1 : selRtRow e <;>
      simp [hn, h1, h2, h5, h6]
  · intro hsel hcls
    refine ⟨_, hget, ?_⟩
    have hg : selGt e = false := by simp [selGt, hasClass, hcls]
    have h6 : selSortHeader e = false := by simp [selSortHeader, hasClass, hcls]
    have h5 : selPagCurrent e = false := by simp [selPagCurrent, hasClass, hcls]
    have h2 : selRtSearch e = false := by simp [selRtSearch, hasClass, hcls]
    have h1 : selRtRow e = false := by simp [selRtRow, hasClass, hcls]
    have h4 : selPagNavButton e = false := by
      have := tag_selText hsel
      rcases this with ht | ht <;> simp [selPagNavButton, ht]
    rw [style_extStep _ _ _ _ hoke, extStyle_color_eq, preStyle_color, hsel, hg,
      h6, h5, h4, h2, h1, hD]
    by_cases hn : (d.elems.filter selReactable).length = 0 <;> simp [hn]

/-- Witness for C9 at a concrete document carrying both theme classes: the
image source survives unchanged and a plain svg `tspan` gets the dark text
color. -/
theorem c9_both_classes_witness :
    (updateImageSrc ⟨["quarto-light", "quarto-dark"],
      [{ tag := "img", src := "p.light.png" }, { tag := "tspan", insideSvg := true }]⟩ =
      Except.ok ⟨["quarto-light", "quarto-dark"],
        [{ tag := "img", src := "p.light.png" },
         { tag := "tspan", insideSvg := true,
           style := { fill := "white", color := "rgb(204,193,183)" },
           originalStyle := some (StoredStyle.valid {}) }]⟩) ∧
    (∃ e2, (DOM.mk ["quarto-light", "quarto-dark"]
        [{ tag := "img", src := "p.light.png" },
         { tag := "tspan", insideSvg := true,
           style := { fill := "white", color := "rgb(204,193,183)" },
           originalStyle := some (StoredStyle.valid {}) }]).elems[0]? = some e2 ∧
      e2.src = "p.light.png") := by
  constructor
  · decide
  · exact (c9_both_classes
      ⟨["quarto-light", "quarto-dark"],
        [{ tag := "img", src := "p.light.png" }, { tag := "tspan", insideSvg := true }]⟩
      ⟨["quarto-light", "quarto-dark"],
        [{ tag := "img", src := "p.light.png" },
         { tag := "tspan", insideSvg := true,
           style := { fill := "white", color := "rgb(204,193,183)" },
           originalStyle := some (StoredStyle.valid {}) }]⟩
      (by decide) (by decide) (by decide) 0 { tag := "img", src := "p.light.png" }
      (by decide)).1 rfl

/-- C6: the original-style snapshot is captured at most once, on the first
invocation that processes a text-matched element, from its pre-mutation state;
once a snapshot record is set no invocation ever overwrites it. -/
theorem c6_snapshot_once (d d2 : DOM) (hrun : updateImageSrc d = Except.ok d2)
    (i : Nat) (e : Elem) (he : d.elems[i]? = some e) :
    (∀ p, e.originalStyle = some p →
      ∃ e2, d2.elems[i]? = some e2 ∧ e2.originalStyle = some p) ∧
    ((d.bodyClasses.contains "quarto-light" = true ∨
        d.bodyClasses.contains "quarto-dark" = true) →
      selText e = true → e.originalStyle = none →
      ∃ e2, d2.elems[i]? = some e2 ∧
        e2.originalStyle = some (StoredStyle.valid (computedOf e))) := by
  by_cases hact : d.bodyClasses.contains "quarto-light" = true ∨
      d.bodyClasses.contains "quarto-dark" = true
  · obtain ⟨hok, hd2⟩ := run_ok_elim hact hrun
    subst hd2
    have hmem := List.getElem?_mem he
    have hoke : selText e = true → e.originalStyle ≠ some StoredStyle.corrupt :=
      hok e hmem
    have hget : (d.elems.map (extStep (d.bodyClasses.contains "quarto-light")
        (d.bodyClasses.contains "quarto-dark")
        ((d.elems.filter selReactable).length)))[i]? =
        some (extStep (d.bodyClasses.contains "quarto-light")
          (d.bodyClasses.contains "quarto-dark")
          ((d.elems.filter selReactable).length) e) := by
      rw [List.getElem?_map, he]
      rfl
    constructor
    · intro p hp
      refine ⟨_, hget, ?_⟩
      rw [payload_extStep _ _ _ _ hoke]
      unfold prePayload
      rw [hp]
      simp [Option.isNone]
    · intro _ hsel hnone
      refine ⟨_, hget, ?_⟩
      rw [payload_extStep _ _ _ _ hoke]
      unfold prePayload
      rw [hnone, hsel]
      simp [Option.isNone]
  · push_neg at hact
    have h1 : d.bodyClasses.contains "quarto-light" = false := by
      simpa using hact.1
    have h2 : d.bodyClasses.contains "quarto-dark" = false := by
      simpa using hact.2
    have := (updateImageSrc_inactive h1 h2).1
    rw [this] at hrun
    injection hrun with hd2
    subst hd2
    refine ⟨fun p hp => ⟨e, he, hp⟩, fun hca => ?_⟩
    rw [h1, h2] at hca
    simp at hca

/-- Witness for C6 at a concrete light document with one fresh `tspan`: the
snapshot is captured from the pre-run computed style. -/
theorem c6_snapshot_once_witness :
    (∃ e2, (DOM.mk ["quarto-light"]
        [{ tag := "tspan", insideSvg := true, base := { color := "red" },
           style := { color := "red" }, originalStyle :=
             some (StoredStyle.valid { color := "red" }) }]).elems[0]? = some e2 ∧
      e2.originalStyle = some (StoredStyle.valid
        (computedOf { tag := "tspan", insideSvg := true, base := { color := "red" } }))) := by
  refine (c6_snapshot_once
    ⟨["quarto-light"], [{ tag := "tspan", insideSvg := true, base := { color := "red" } }]⟩
    ⟨["quarto-light"],
      [{ tag := "tspan", insideSvg := true, base := { color := "red" },
         style := { color := "red" }, originalStyle :=
           some (StoredStyle.valid { color := "red" }) }]⟩
    ?_ 0 { tag := "tspan", insideSvg := true, base := { color := "red" } }
    (by decide)).2 (Or.inl (by decide)) (by decide) rfl
  decide

/-- C7 (amended): decoding the cached style snapshot is unguarded, so a
corrupted (non-decodable) cached value on any text-matched element makes a
themed invocation raise an unhandled parse failure that propagates to the
caller; an ABSENT cached value, however, does not fail — the guard recaptures
it before decoding — so an invocation whose text-matched elements carry no
corrupted payload succeeds. -/
theorem c7_corrupt_cache_error (d : DOM) :
    ((d.bodyClasses.contains "quarto-light" = true ∨
        d.bodyClasses.contains "quarto-dark" = true) →
      (∃ (i : Nat) (e : Elem), d.elems[i]? = some e ∧ selText e = true ∧
        e.originalStyle = some StoredStyle.corrupt) →
      updateImageSrc d = Except.error ()) ∧
    ((∀ (i : Nat) (e : Elem), d.elems[i]? = some e → selText e = true →
        e.originalStyle ≠ some StoredStyle.corrupt) →
      ∃ d2, updateImageSrc d = Except.ok d2) := by
  constructor
  · rintro hact ⟨i, e, he, hsel, hcor⟩
    exact updateImageSrc_error_eq hact ⟨e, List.getElem?_mem he, hsel, hcor⟩
  · intro hok
    by_cases hact : d.bodyClasses.contains "quarto-light" = true ∨
        d.bodyClasses.contains "quarto-dark" = true
    · refine ⟨_, updateImageSrc_ok_eq hact ?_⟩
      intro e he hsel
      obtain ⟨i, hi⟩ := List.mem_iff_getElem?.mp he
      exact hok i e hi hsel
    · push_neg at hact
      exact ⟨d, (updateImageSrc_inactive (by simpa using hact.1)
        (by simpa using hact.2)).1⟩

/-- Counterexample to C7 as stated: an ABSENT cached snapshot does not raise a
failure — the invocation succeeds, recapturing the snapshot — so "corrupted or
absent" is wrong about the absent case.  (A corrupted value does fail, as the
amended claim records.) -/
theorem c7_absent_cache_no_error :
    (∃ e, (DOM.mk ["quarto-light"] [{ tag := "tspan", insideSvg := true }]).elems[0]? =
      some e ∧ selText e = true ∧ e.originalStyle = none) ∧
    updateImageSrc ⟨["quarto-light"], [{ tag := "tspan", insideSvg := true }]⟩ ≠
      Except.error () := by
  constructor
  · exact ⟨_, rfl, by decide, rfl⟩
  · decide

/-- Witness for C7 (amended) at a concrete corrupted document and a concrete
clean one. -/
theorem c7_corrupt_cache_error_witness :
    updateImageSrc ⟨["quarto-dark"],
      [{ tag := "tspan", insideSvg := true,
         originalStyle := some StoredStyle.corrupt }]⟩ = Except.error () :=
  (c7_corrupt_cache_error ⟨["quarto-dark"],
    [{ tag := "tspan", insideSvg := true,
       originalStyle := some StoredStyle.corrupt }]⟩).1
    (Or.inr (by decide)) ⟨0, _, rfl, by decide, rfl⟩

/-- C10: in the extended variant, every dark-mode invocation attaches, per
reactable table, a fresh `click` listener (block one), two fresh `mouseenter`
and `mouseleave` listeners (one per near-duplicate block), and fresh
`mousedown`/`mouseup` listeners (block two) to each pagination button; no
invocation in either theme removes a listener; and a light-mode invocation
only clears a plain pagination button's transition style.  Listener counts
therefore grow without bound across dark invocations. -/
theorem c10_listener_accumulation (d d2 : DOM)
    (hrun : updateImageSrc d = Except.ok d2)
    (i : Nat) (e : Elem) (he : d.elems[i]? = some e) :
    (d.bodyClasses.contains "quarto-dark" = true →
      e.tag = "button" → e.insideRtPagination = true →
      ∃ e2, d2.elems[i]? = some e2 ∧ e2.listeners =
        { click := e.listeners.click + (d.elems.filter selReactable).length,
          mouseenter := e.listeners.mouseenter +
            2 * (d.elems.filter selReactable).length,
          mouseleave := e.listeners.mouseleave +
            2 * (d.elems.filter selReactable).length,
          mousedown := e.listeners.mousedown + (d.elems.filter selReactable).length,
          mouseup := e.listeners.mouseup + (d.elems.filter selReactable).length }) ∧
    (∃ e2, d2.elems[i]? = some e2 ∧
      e.listeners.click ≤ e2.listeners.click ∧
      e.listeners.mouseenter ≤ e2.listeners.mouseenter ∧
      e.listeners.mouseleave ≤ e2.listeners.mouseleave ∧
      e.listeners.mousedown ≤ e2.listeners.mousedown ∧
      e.listeners.mouseup ≤ e2.listeners.mouseup) ∧
    (d.bodyClasses.contains "quarto-light" = true →
      d.bodyClasses.contains "quarto-dark" = false →
      e.tag = "button" → e.insideRtPagination = true →
      e.insideRtPaginationNav = false → e.classes = [] →
      1 ≤ (d.elems.filter selReactable).length →
      ∃ e2, d2.elems[i]? = some e2 ∧
        e2 = { e with style := { e.style with transition := "" } }) := by
  by_cases hact : d.bodyClasses.contains "quarto-light" = true ∨
      d.bodyClasses.contains "quarto-dark" = true
  · obtain ⟨hok, hd2⟩ := run_ok_elim hact hrun
    subst hd2
    have hmem := List.getElem?_mem he
    have hoke : selText e = true → e.originalStyle ≠ some StoredStyle.corrupt :=
      hok e hmem
    have hget : (d.elems.map (extStep (d.bodyClasses.contains "quarto-light")
        (d.bodyClasses.contains "quarto-dark")
        ((d.elems.filter selReactable).length)))[i]? =
        some (extStep (d.bodyClasses.contains "quarto-light")
          (d.bodyClasses.contains "quarto-dark")
          ((d.elems.filter selReactable).length) e) := by
      rw [List.getElem?_map, he]
      rfl
    refine ⟨?_, ?_, ?_⟩
    · intro hD htag hflag
      refine ⟨_, hget, ?_⟩
      have hsel : selPagButton e = true := by simp [selPagButton, htag, hflag]
      rw [listeners_extStep _ _ _ _ hoke]
      unfold extListeners
      rw [hD, hsel]
      simp
    · refine ⟨_, hget, ?_⟩
      rw [listeners_extStep _ _ _ _ hoke]
      unfold extListeners
      cases hb : (d.bodyClasses.contains "quarto-dark" && selPagButton e) <;>
        simp [hb] <;> omega
    · intro hL hD htag hflag hnav hcls hn
      refine ⟨_, hget, ?_⟩
      have hsel : selPagButton e = true := by simp [selPagButton, htag, hflag]
      have hT : selText e = false :=
        selText_false_of_tag (by rw [htag]; decide) (by rw [htag]; decide)
      have hI : selImg e = false := by simp [selImg, htag]
      have hS : selSvgBackground e = false := by simp [selSvgBackground, htag]
      have hR : selRectFill e = false := by simp [selRectFill, htag]
      have hg : selGt e = false := by simp [selGt, hasClass, hcls]
      have h6 : selSortHeader e = false := by simp [selSortHeader, hasClass, hcls]
      have h5 : selPagCurrent e = false := by simp [selPagCurrent, hasClass, hcls]
      have h2 : selRtSearch e = false := by simp [selRtSearch, hasClass, hcls]
      have h1 : selRtRow e = false := by simp [selRtRow, hasClass, hcls]
      have h4 : selPagNavButton e = false := by simp [selPagNavButton, hnav]
      have hn0 : (d.elems.filter selReactable).length ≠ 0 := by omega
      rw [extStep_eq_full _ _ _ _ hoke]
      apply Elem.ext <;> try rfl
      · show preSrc (d.bodyClasses.contains "quarto-light")
          (d.bodyClasses.contains "quarto-dark") e = e.src
        unfold preSrc
        simp [hI]
      · show extStyle (d.bodyClasses.contains "quarto-dark") "rgb(204,193,183)"
          ((d.elems.filter selReactable).length) e =
          { e.style with transition := "" }
        apply Style.ext
        · rw [extStyle_background, preStyle_background, hS]
          simp
        · rw [extStyle_fill, preStyle_fill, hT, hR]
          simp
        · rw [extStyle_color_eq, preStyle_color, hg, hT, h6, h5, h4, h2, h1]
          simp [hn0]
        · rw [extStyle_fontSize, preStyle_fontSize, hT]
          simp
        · rw [extStyle_fontWeight, preStyle_fontWeight, hT]
          simp
        · rw [extStyle_fontFamily, preStyle_fontFamily, hT]
          simp
        · rw [extStyle_textDecoration, preStyle_textDecoration, hT]
          simp
        · rw [extStyle_backgroundColor_eq, h5, h2]
          simp [hn0]
        · rw [extStyle_borderColor_eq, h2]
          simp [hn0]
        · rw [extStyle_transition_eq, hsel, hD]
          simp [hn0]
      · show prePayload e = e.originalStyle
        unfold prePayload
        simp [hT]
      · show extListeners (d.bodyClasses.contains "quarto-dark")
          ((d.elems.filter selReactable).length) e = e.listeners
        unfold extListeners
        rw [hD]
        simp
  · push_neg at hact
    have h1 : d.bodyClasses.contains "quarto-light" = false := by simpa using hact.1
    have h2 : d.bodyClasses.contains "quarto-dark" = false := by simpa using hact.2
    have hinact := (updateImageSrc_inactive h1 h2).1
    rw [hinact] at hrun
    injection hrun with hd2
    subst hd2
    refine ⟨?_, ⟨e, he, le_refl _, le_refl _, le_refl _, le_refl _, le_refl _⟩, ?_⟩
    · intro hD
      rw [hD] at h2
      exact absurd h2 (by decide)
    · intro hL
      rw [hL] at h1
      exact absurd h1 (by decide)

/-- Witness for C10: one reactable table and one pagination button under
`quarto-dark` — the single invocation attaches 1/2/2/1/1 listeners. -/
theorem c10_listener_accumulation_witness :
    (updateImageSrc ⟨["quarto-dark"],
      [{ tag := "div", classes := ["reactable"] },
       { tag := "button", insideRtPagination := true }]⟩ =
      Except.ok ⟨["quarto-dark"],
        [{ tag := "div", classes := ["reactable"] },
         { tag := "button", insideRtPagination := true,
           style := { transition := "background-color 0.2s" },
           listeners := { click := 1, mouseenter := 2, mouseleave := 2, mousedown := 1, mouseup := 1 } }]⟩) ∧
    (∃ e2, (DOM.mk ["quarto-dark"]
        [{ tag := "div", classes := ["reactable"] },
         { tag := "button", insideRtPagination := true,
           style := { transition := "background-color 0.2s" },
           listeners := { click := 1, mouseenter := 2, mouseleave := 2, mousedown := 1, mouseup := 1 } }]).elems[1]? = some e2 ∧
      e2.listeners = { click := 0 + 1, mouseenter := 0 + 2 * 1, mouseleave := 0 + 2 * 1, mousedown := 0 + 1, mouseup := 0 + 1 }) := by
  constructor
  · decide
  · exact (c10_listener_accumulation
      ⟨["quarto-dark"],
        [{ tag := "div", classes := ["reactable"] },
         { tag := "button", insideRtPagination := true }]⟩
      ⟨["quarto-dark"],
        [{ tag := "div", classes := ["reactable"] },
         { tag := "button", insideRtPagination := true,
           style := { transition := "background-color 0.2s" },
           listeners := { click := 1, mouseenter := 2, mouseleave := 2, mousedown := 1, mouseup := 1 } }]⟩
      (by decide) 1 { tag := "button", insideRtPagination := true }
      (by decide)).1 (by decide) rfl rfl

theorem prePayload_of_some {e : Elem} {p : StoredStyle}
    (h : e.originalStyle = some p) : prePayload e = some p := by
  unfold prePayload
  rw [h]
  simp [Option.isNone]

/-- The element used to refute C2 as stated: a legend/text-matched `tspan`
that also carries a gt-table class, so the table step overwrites its restored
color after every light pass. -/
def c2CexElem : Elem :=
  { tag := "tspan", insideSvg := true, classes := ["gt_table_body"],
    base := { fill := "black", color := "red", fontSize := "12px", fontWeight := "400", fontFamily := "serif", textDecoration := "none" } }

/-- Counterexample to C2 as stated: `c2CexElem` is matched by the legend/text
selectors and its snapshot (captured during the light invocation) records
color `red`, yet after light → dark → light its inline color is `""` — the
gt-table step runs after the restore step and clears it — so not every
snapshotted attribute is restored for every text-matched element. -/
theorem c2_roundtrip_cex :
    selText c2CexElem = true ∧
    ((updateImageSrc ⟨["quarto-light"], [c2CexElem]⟩).toOption.map
      (fun d1 => d1.elems.map (fun e => e.originalStyle))) =
      some [some (StoredStyle.valid { fill := "black", color := "red", fontSize := "12px", fontWeight := "400", fontFamily := "serif", textDecoration := "none" })] ∧
    (((updateImageSrc ⟨["quarto-light"], [c2CexElem]⟩).bind (fun d1 =>
      (updateImageSrc ⟨["quarto-dark"], d1.elems⟩).bind (fun d2 =>
        updateImageSrc ⟨["quarto-light"], d2.elems⟩))).toOption.map
      (fun d3 => d3.elems.map (fun e => e.style.color))) = some [""] ∧
    ("" : String) ≠ "red" := by
  refine ⟨by decide, by decide, by decide, by decide⟩

/-- C2 (amended): for a text-matched element that is NOT also matched by the
gt-table or reactable text-color selectors, a light → dark → light round trip
restores fill, color, font-size, font-weight, font-family and text-decoration
exactly to the values snapshotted during the first (light) invocation. -/
theorem c2_roundtrip_restore (d0 d1 d2 d3 : DOM) (cs1 cs2 : List String)
    (h0L : d0.bodyClasses.contains "quarto-light" = true)
    (hrun1 : updateImageSrc d0 = Except.ok d1)
    (h1D : cs1.contains "quarto-dark" = true)
    (hrun2 : updateImageSrc ⟨cs1, d1.elems⟩ = Except.ok d2)
    (h2L : cs2.contains "quarto-light" = true)
    (h2D : cs2.contains "quarto-dark" = false)
    (hrun3 : updateImageSrc ⟨cs2, d2.elems⟩ = Except.ok d3)
    (i : Nat) (e : Elem) (he : d0.elems[i]? = some e)
    (hsel : selText e = true) (hfresh : e.originalStyle = none)
    (hG : selGt e = false) (hRw : selRtRow e = false) (hSe : selRtSearch e = false)
    (hCu : selPagCurrent e = false) (hSo : selSortHeader e = false) :
    (∃ e1, d1.elems[i]? = some e1 ∧
      e1.originalStyle = some (StoredStyle.valid (computedOf e))) ∧
    (∃ e3, d3.elems[i]? = some e3 ∧
      e3.style.fill = (computedOf e).fill ∧
      e3.style.color = (computedOf e).color ∧
      e3.style.fontSize = (computedOf e).fontSize ∧
      e3.style.fontWeight = (computedOf e).fontWeight ∧
      e3.style.fontFamily = (computedOf e).fontFamily ∧
      e3.style.textDecoration = (computedOf e).textDecoration) := by
  obtain ⟨hok0, hd1⟩ := run_ok_elim (Or.inl h0L) hrun1
  subst hd1
  have hmem0 := List.getElem?_mem he
  have hoke0 := hok0 e hmem0
  have hget1 : ((d0.elems.map (extStep (d0.bodyClasses.contains "quarto-light")
      (d0.bodyClasses.contains "quarto-dark")
      ((d0.elems.filter selReactable).length))))[i]? =
      some (extStep (d0.bodyClasses.contains "quarto-light")
        (d0.bodyClasses.contains "quarto-dark")
        ((d0.elems.filter selReactable).length) e) := by
    rw [List.getElem?_map, he]
    rfl
  set e1 := extStep (d0.bodyClasses.contains "quarto-light")
    (d0.bodyClasses.contains "quarto-dark")
    ((d0.elems.filter selReactable).length) e with he1
  have hpay1 : e1.originalStyle = some (StoredStyle.valid (computedOf e)) := by
    rw [he1, payload_extStep _ _ _ _ hoke0]
    unfold prePayload
    rw [hsel, hfresh]
    simp [Option.isNone]
  have hcore1 : coreOf e1 = coreOf e := coreOf_extStep _ _ _ _
  obtain ⟨hok1, hd2⟩ := run_ok_elim (Or.inr h1D) hrun2
  subst hd2
  have hoke1 : selText e1 = true → e1.originalStyle ≠ some StoredStyle.corrupt := by
    intro _
    rw [hpay1]
    intro hc
    injection hc with hc2
    exact StoredStyle.noConfusion hc2
  have hget2 : ∀ l2 : List Elem, ∀ n1 : Nat, True := fun _ _ => trivial
  set e2 := extStep (cs1.contains "quarto-light") (cs1.contains "quarto-dark")
    (((d0.elems.map (extStep (d0.bodyClasses.contains "quarto-light")
      (d0.bodyClasses.contains "quarto-dark")
      ((d0.elems.filter selReactable).length))).filter selReactable).length) e1
    with he2
  have hget2a : ((d0.elems.map (extStep (d0.bodyClasses.contains "quarto-light")
      (d0.bodyClasses.contains "quarto-dark")
      ((d0.elems.filter selReactable).length))).map
        (extStep (cs1.contains "quarto-light") (cs1.contains "quarto-dark")
          (((d0.elems.map (extStep (d0.bodyClasses.contains "quarto-light")
            (d0.bodyClasses.contains "quarto-dark")
            ((d0.elems.filter selReactable).length))).filter selReactable).length)))[i]? =
      some e2 := by
    rw [List.getElem?_map, hget1]
    rfl
  have hpay2 : e2.originalStyle = some (StoredStyle.valid (computedOf e)) := by
    rw [he2, payload_extStep _ _ _ _ hoke1, prePayload_of_some hpay1]
  have hcore2 : coreOf e2 = coreOf e := by
    rw [he2]
    exact (coreOf_extStep _ _ _ _).trans hcore1
  have hoke2 : selText e2 = true → e2.originalStyle ≠ some StoredStyle.corrupt := by
    intro _
    rw [hpay2]
    intro hc
    injection hc with hc2
    exact StoredStyle.noConfusion hc2
  obtain ⟨hok2, hd3⟩ := run_ok_elim (Or.inl h2L) hrun3
  subst hd3
  constructor
  · exact ⟨e1, hget1, hpay1⟩
  · refine ⟨_, by rw [List.getElem?_map, hget2a]; rfl, ?_, ?_, ?_, ?_, ?_, ?_⟩ <;>
      rw [style_extStep _ _ _ _ hoke2]
    · rw [extStyle_fill, preStyle_fill, selText_core hcore2, hsel]
      rw [h2D]
      simp [origOf_of_payload hpay2]
    · rw [extStyle_color_eq, preStyle_color, selText_core hcore2,
        selGt_core hcore2, selSortHeader_core hcore2, selPagCurrent_core hcore2,
        selRtSearch_core hcore2, selRtRow_core hcore2, selPagNavButton_core hcore2,
        hsel, hG, hRw, hSe, hCu, hSo]
      have hnav : selPagNavButton e = false := by
        rcases tag_selText hsel with ht | ht <;> simp [selPagNavButton, ht]
      rw [hnav, h2D]
      have horig2 := origOf_of_payload hpay2
      split <;> simp [horig2]
    · rw [extStyle_fontSize, preStyle_fontSize, selText_core hcore2, hsel, h2D]
      simp [origOf_of_payload hpay2]
    · rw [extStyle_fontWeight, preStyle_fontWeight, selText_core hcore2, hsel, h2D]
      simp [origOf_of_payload hpay2]
    · rw [extStyle_fontFamily, preStyle_fontFamily, selText_core hcore2, hsel, h2D]
      simp [origOf_of_payload hpay2]
    · rw [extStyle_textDecoration, preStyle_textDecoration, selText_core hcore2,
        hsel, h2D]
      simp [origOf_of_payload hpay2]

def c2Snap : Snapshot :=
  { fill := "black", color := "red", fontSize := "12px", fontWeight := "400", fontFamily := "serif", textDecoration := "none" }

def c2E0 : Elem := { tag := "tspan", insideSvg := true, base := c2Snap }

def c2E1 : Elem :=
  { tag := "tspan", insideSvg := true, base := c2Snap,
    style := { fill := "black", color := "red", fontSize := "12px", fontWeight := "400", fontFamily := "serif", textDecoration := "none" },
    originalStyle := some (StoredStyle.valid c2Snap) }

def c2E2 : Elem :=
  { c2E1 with style := { c2E1.style with fill := "white", color := "rgb(204,193,183)" } }

/-- Witness for C2 (amended) at a concrete light → dark → light chain on a
plain svg `tspan`. -/
theorem c2_roundtrip_restore_witness :
    (∃ e1, (DOM.mk ["quarto-light"] [c2E1]).elems[0]? = some e1 ∧
      e1.originalStyle = some (StoredStyle.valid (computedOf c2E0))) ∧
    (∃ e3, (DOM.mk ["quarto-light"] [c2E1]).elems[0]? = some e3 ∧
      e3.style.fill = (computedOf c2E0).fill ∧
      e3.style.color = (computedOf c2E0).color ∧
      e3.style.fontSize = (computedOf c2E0).fontSize ∧
      e3.style.fontWeight = (computedOf c2E0).fontWeight ∧
      e3.style.fontFamily = (computedOf c2E0).fontFamily ∧
      e3.style.textDecoration = (computedOf c2E0).textDecoration) :=
  c2_roundtrip_restore ⟨["quarto-light"], [c2E0]⟩ ⟨["quarto-light"], [c2E1]⟩
    ⟨["quarto-dark"], [c2E2]⟩ ⟨["quarto-light"], [c2E1]⟩
    ["quarto-dark"] ["quarto-light"]
    (by decide) (by decide) (by decide) (by decide) (by decide) (by decide)
    (by decide) 0 c2E0 (by decide) (by decide) rfl (by decide) (by decide)
    (by decide) (by decide) (by decide)

theorem updateImageSrcBasic_error_eq {d : DOM}
    (hact : d.bodyClasses.contains "quarto-light" = true ∨
      d.bodyClasses.contains "quarto-dark" = true)
    (hbad : ∃ e ∈ d.elems, selText e = true ∧
      e.originalStyle = some StoredStyle.corrupt) :
    updateImageSrcBasic d = Except.error () := by
  have hcond : (!d.bodyClasses.contains "quarto-light" &&
      !d.bodyClasses.contains "quarto-dark") = false := by
    rcases hact with h | h
    · rw [h]; rfl
    · rw [h]
      simp only [Bool.not_true, Bool.and_false]
  simp only [updateImageSrcBasic, hcond, Bool.false_eq_true, if_false]
  set isL := d.bodyClasses.contains "quarto-light" with hLdef
  set isD := d.bodyClasses.contains "quarto-dark" with hDdef
  have hB : updateElements selRectFill
      (updateStyle (fun s => s.fill) (fun s v => { s with fill := v }) isD
        "rgb(255, 241, 229)" "rgb(34, 34, 34)")
      (updateElements selSvgBackground
        (updateStyle (fun s => s.background) (fun s v => { s with background := v }) isD
          "rgb(255, 241, 229)" "rgb(34, 34, 34)")
        (updateElements selImg (imgUpdate isL isD) d.elems)) =
      d.elems.map (fun x => rectStep isD (svgStep isD (imgStep isL isD x))) := by
    simp only [updateElements, List.map_map]
    rfl
  rw [hB]
  obtain ⟨x, hx, hsel, hcorrupt⟩ := hbad
  have herr : updateElementsE selText (textUpdate isD "white")
      (d.elems.map (fun x => rectStep isD (svgStep isD (imgStep isL isD x)))) =
      Except.error () := by
    apply updateElementsE_error
    refine ⟨rectStep isD (svgStep isD (imgStep isL isD x)),
      List.mem_map_of_mem _ hx, ?_, ?_⟩
    · have hcore2 : coreOf (rectStep isD (svgStep isD (imgStep isL isD x))) =
          coreOf x := by
        rw [coreOf_rectStep, coreOf_svgStep, coreOf_imgStep]
      rw [selText_core hcore2]
      exact hsel
    · apply textUpdate_corrupt
      rw [originalStyle_rectStep, originalStyle_svgStep, originalStyle_imgStep]
      exact hcorrupt
  rw [herr, except_bind_error]

theorem selText_full (e : Elem) (v : String) (s : Style) (p : Option StoredStyle) :
    selText { e with src := v, style := s, originalStyle := p } = selText e := rfl

/-- On documents without reactable tables the two variants differ only here:
in dark mode the extended variant writes `rgb(204,193,183)` where the basic
variant writes `white` on text-matched elements. -/
def basicColorFix (isD : Bool) (e : Elem) : Elem :=
  if isD && selText e then { e with style := { e.style with color := "white" } }
  else e

set_option maxHeartbeats 2000000 in
theorem basicStep_fix (isL isD : Bool) (e : Elem)
    (h : selText e = true → e.originalStyle ≠ some StoredStyle.corrupt) :
    basicStep isL isD e =
      basicColorFix isD (preStep isL isD "rgb(204,193,183)" e) := by
  rw [basicStep_decomp, preStep_eq2 _ _ _ _ h, preStep_eq2 _ _ _ _ h]
  unfold basicColorFix
  cases hd : isD <;> cases hT : selText e <;> cases hG : selGt e <;>
    simp [hd, hT, hG, selText_full, preStyle, prePayload, Elem.mk.injEq,
      Style.mk.injEq]

/-- A reactable-free document witnessing that the two variants are NOT
identical outside the reactable selectors. -/
def c8D : DOM := ⟨["quarto-dark"], [{ tag := "tspan", insideSvg := true }]⟩

/-- C8 counterexample: the claim that for documents with no reactable table the
two variants produce the same styles is false.  On a dark document holding a
single `tspan` inside an `svg` (no reactable anywhere), the extended variant
writes text color `rgb(204,193,183)` while the basic variant writes `white`:
the two runs differ on an element outside every reactable-specific selector. -/
theorem c8_variant_divergence_cex :
    c8D.elems.filter selReactable = [] ∧
    updateImageSrc c8D ≠ updateImageSrcBasic c8D ∧
    (updateImageSrc c8D).toOption.map
      (fun x => x.elems.map (fun e => e.style.color)) = some ["rgb(204,193,183)"] ∧
    (updateImageSrcBasic c8D).toOption.map
      (fun x => x.elems.map (fun e => e.style.color)) = some ["white"] := by
  refine ⟨by decide, by decide, by decide, by decide⟩

/-- C8 (amended): on any document containing no reactable table, the basic
variant agrees with the extended variant up to one per-element correction:
in dark mode the basic variant writes `white` instead of `rgb(204,193,183)`
as the text color of text-selector matches (`basicColorFix`).  Image sources,
all other style properties, and snapshot records coincide, and the two
variants succeed or fail together. -/
theorem c8_variant_agreement (d : DOM)
    (hno : ∀ (e : Elem), e ∈ d.elems → selReactable e = false) :
    updateImageSrcBasic d = (updateImageSrc d).map
      (fun x => DOM.mk x.bodyClasses
        (x.elems.map (basicColorFix (d.bodyClasses.contains "quarto-dark")))) := by
  by_cases hact : d.bodyClasses.contains "quarto-light" = true ∨
      d.bodyClasses.contains "quarto-dark" = true
  · by_cases hok : ∀ (e : Elem), e ∈ d.elems → selText e = true →
        e.originalStyle ≠ some StoredStyle.corrupt
    · rw [updateImageSrcBasic_ok_eq hact hok, updateImageSrc_ok_eq hact hok]
      simp only [Except.map]
      have hfil : d.elems.filter selReactable = [] := by
        rw [List.filter_eq_nil]
        intro a ha
        simp [hno a ha]
      rw [hfil]
      simp only [List.length_nil, List.map_map]
      congr 1
      apply DOM.ext
      · rfl
      · show d.elems.map _ = d.elems.map _
        apply List.map_congr_left
        intro e he
        show basicStep _ _ e = basicColorFix _ (extStep _ _ 0 e)
        rw [extStep_decomp, Function.iterate_zero_apply]
        exact basicStep_fix _ _ e (hok e he)
    · push_neg at hok
      obtain ⟨x, hx, hsel, hcorrupt⟩ := hok
      have hbad : ∃ e ∈ d.elems, selText e = true ∧
          e.originalStyle = some StoredStyle.corrupt := ⟨x, hx, hsel, hcorrupt⟩
      rw [updateImageSrcBasic_error_eq hact hbad, updateImageSrc_error_eq hact hbad]
      rfl
  · rw [not_or, Bool.not_eq_true, Bool.not_eq_true] at hact
    obtain ⟨hL, hD⟩ := hact
    obtain ⟨hext, hbasic⟩ := updateImageSrc_inactive hL hD
    rw [hbasic, hext, hD]
    simp only [Except.map]
    have hmap : d.elems.map (basicColorFix false) = d.elems := by
      rw [show basicColorFix false = id from rfl, List.map_id]
    rw [hmap]

/-- Witness for C8 (amended) at the concrete reactable-free dark document. -/
theorem c8_variant_agreement_witness :
    updateImageSrcBasic c8D = (updateImageSrc c8D).map
      (fun x => DOM.mk x.bodyClasses
        (x.elems.map (basicColorFix (c8D.bodyClasses.contains "quarto-dark")))) :=
  c8_variant_agreement c8D (by decide)

/-- A dark document with one reactable table and one pagination button. -/
def c1D : DOM := ⟨["quarto-dark"],
  [{ tag := "div", classes := ["reactable"] },
   { tag := "button", insideRtPagination := true }]⟩

/-- C1 counterexample: a second invocation with the same body classes is NOT
mutation-free.  On a dark document with a reactable table and a pagination
button, the first run attaches one click listener to the button and the second
run attaches another: the document after two runs differs from the document
after one. -/
theorem c1_second_run_mutates_cex :
    (updateImageSrc c1D).bind updateImageSrc ≠ updateImageSrc c1D ∧
    ((updateImageSrc c1D).toOption.map
      (fun x => x.elems.map (fun e => e.listeners.click))) = some [0, 1] ∧
    (((updateImageSrc c1D).bind updateImageSrc).toOption.map
      (fun x => x.elems.map (fun e => e.listeners.click))) = some [0, 2] :=
  ⟨by decide, by decide, by decide⟩

/-- C1 (amended): every style, src and snapshot write of a second invocation
with unchanged body classes is suppressed by its equality guard — the second
run succeeds and changes nothing except the listener state — provided each
image source holds at most one occurrence of the marker being replaced (the
source's replace-first rewrite is only idempotent then).  Listener
registrations are NOT idempotent (see the counterexample). -/
theorem c1_idempotent_modulo_listeners {d d1 : DOM}
    (hact : d.bodyClasses.contains "quarto-light" = true ∨
      d.bodyClasses.contains "quarto-dark" = true)
    (hrun : updateImageSrc d = Except.ok d1)
    (hsrc : ∀ (e : Elem), e ∈ d.elems → selImg e = true →
      countOcc ((if d.bodyClasses.contains "quarto-light" then ".dark"
        else ".light") : String).toList e.src.toList ≤ 1) :
    ∃ (d2 : DOM), updateImageSrc d1 = Except.ok d2 ∧ stripDom d2 = stripDom d1 := by
  obtain ⟨hok, hd1⟩ := run_ok_elim hact hrun
  set isL := d.bodyClasses.contains "quarto-light" with hLdef
  set isD := d.bodyClasses.contains "quarto-dark" with hDdef
  set n := (d.elems.filter selReactable).length with hndef
  have hbody : d1.bodyClasses = d.bodyClasses := by rw [hd1]
  have hact1 : d1.bodyClasses.contains "quarto-light" = true ∨
      d1.bodyClasses.contains "quarto-dark" = true := by
    rw [hbody]
    exact hact
  have helems : d1.elems = d.elems.map (extStep isL isD n) := by rw [hd1]
  have hok1 : ∀ e ∈ d1.elems, selText e = true →
      e.originalStyle ≠ some StoredStyle.corrupt := by
    intro e he hsel
    rw [helems] at he
    obtain ⟨x, hx, rfl⟩ := List.mem_map.mp he
    have hcore := coreOf_extStep isL isD n x
    have hselx : selText x = true := by
      rw [← selText_core hcore]
      exact hsel
    rw [payload_extStep isL isD n x (hok x hx),
      prePayload_of_selText hselx (hok x hx hselx)]
    simp
  have hchar1 := updateImageSrc_ok_eq hact1 hok1
  refine ⟨_, hchar1, ?_⟩
  have hn1 : (d1.elems.filter selReactable).length = n := by
    rw [helems]
    exact filter_length_map
      (fun e => selReactable_core (coreOf_extStep isL isD n e)) d.elems
  unfold stripDom
  rw [hbody, hn1, helems]
  simp only [List.map_map]
  apply DOM.ext
  · rfl
  · show List.map _ d.elems = List.map _ d.elems
    apply List.map_congr_left
    intro e he
    show stripListeners (extStep isL isD n (extStep isL isD n e)) =
      stripListeners (extStep isL isD n e)
    exact extStep_idem isL isD n e (hok e he) (hsrc e he)

/-- Witness for C1 (amended): a concrete dark document whose single image
source "chart.light.png" holds one ".light" marker; the first run rewrites it
to "chart.dark.png" and the second run changes nothing up to listeners. -/
theorem c1_idempotent_modulo_listeners_witness :
    updateImageSrc (DOM.mk ["quarto-dark"] [{ tag := "img", src := "chart.light.png" }]) =
      Except.ok (DOM.mk ["quarto-dark"] [{ tag := "img", src := "chart.dark.png" }]) ∧
    ∃ (d2 : DOM),
      updateImageSrc (DOM.mk ["quarto-dark"] [{ tag := "img", src := "chart.dark.png" }]) =
        Except.ok d2 ∧
      stripDom d2 = stripDom (DOM.mk ["quarto-dark"] [{ tag := "img", src := "chart.dark.png" }]) :=
  ⟨by decide, @c1_idempotent_modulo_listeners
    (DOM.mk ["quarto-dark"] [{ tag := "img", src := "chart.light.png" }])
    (DOM.mk ["quarto-dark"] [{ tag := "img", src := "chart.dark.png" }])
    (by decide) (by decide) (by decide)⟩
